import Mathlib

/-!
Verification of the compliance evaluation engine of the Jira-Extraction-System
repository. The Python sources under src/src/compliance/checks.py,
src/src/reports/audit_report_builder.py and src/src/reports/compliance_builder.py
are shallowly embedded below: dictionaries become structures with Option fields
for keys that may be absent, Python exceptions (KeyError, TypeError, ValueError)
become the error branch of Except, and string/date primitives are reimplemented
over lists of characters so that they compute inside the kernel.
-/

/-! ## String primitives (embedding Python str operations over ASCII data) -/

/-- Embedding of Python str.lower for one ASCII character. -/
def pyLowerChar (c : Char) : Char :=
  if 'A' ≤ c ∧ c ≤ 'Z' then Char.ofNat (c.toNat + 32) else c

/-- Embedding of Python str.upper for one ASCII character. -/
def pyUpperChar (c : Char) : Char :=
  if 'a' ≤ c ∧ c ≤ 'z' then Char.ofNat (c.toNat - 32) else c

/-- Embedding of Python str.lower. -/
def strLower (s : String) : String := String.mk (s.data.map pyLowerChar)

/-- Embedding of Python str.upper. -/
def strUpper (s : String) : String := String.mk (s.data.map pyUpperChar)

/-- Substring test on character lists: does the needle occur contiguously in the
haystack?  This embeds the Python `in` operator on strings. -/
def subOf : List Char → List Char → Bool
  | n, [] => n.isEmpty
  | n, h :: t => n.isPrefixOf (h :: t) || subOf n t

/-- Embedding of the Python expression `needle in hay` for strings. -/
def strIn (needle hay : String) : Bool := subOf needle.data hay.data

/-- Embedding of Python str.startswith. -/
def strStartsWith (s p : String) : Bool := p.data.isPrefixOf s.data

/-- Embedding of Python str.endswith. -/
def strEndsWith (s p : String) : Bool := p.data.reverse.isPrefixOf s.data.reverse

/-- Embedding of Python `", ".join(parts)` as used in the f-strings of the checks. -/
def joinComma : List String → String
  | [] => ""
  | [x] => x
  | x :: xs => x ++ ", " ++ joinComma xs

/-- Word counter over characters: a word is a maximal run of non-whitespace. -/
def wordCountAux : List Char → Bool → Nat
  | [], _ => 0
  | c :: cs, inWord =>
    if c.isWhitespace then wordCountAux cs false
    else (if inWord then 0 else 1) + wordCountAux cs true

/-- Number of whitespace-separated words, embedding Python `len(body.split())`. -/
def wordCount (s : String) : Nat := wordCountAux s.data false

/-! ## Date primitives (embedding datetime.strptime and datetime.weekday) -/

def digitVal (c : Char) : Nat := c.toNat - '0'.toNat

def natOfDigits (l : List Char) : Nat := l.foldl (fun a c => a * 10 + digitVal c) 0

def isLeapYear (y : Nat) : Bool := (y % 4 == 0 && y % 100 != 0) || y % 400 == 0

def daysInMonth (y m : Nat) : Nat :=
  if m == 2 then (if isLeapYear y then 29 else 28)
  else if m == 4 || m == 6 || m == 9 || m == 11 then 30
  else 31

/-- Embedding of `datetime.strptime(s, "%Y-%m-%d")`: accepts exactly the
ten-character YYYY-MM-DD layout with a calendar-valid month and day, and is
`none` (a raised ValueError) otherwise. -/
def strptime_Ymd (s : String) : Option (Nat × Nat × Nat) :=
  match s.data with
  | [y1, y2, y3, y4, s1, m1, m2, s2, d1, d2] =>
    if [y1, y2, y3, y4, m1, m2, d1, d2].all Char.isDigit && s1 == '-' && s2 == '-' then
      let y := natOfDigits [y1, y2, y3, y4]
      let m := natOfDigits [m1, m2]
      let d := natOfDigits [d1, d2]
      if 1 ≤ m && m ≤ 12 && 1 ≤ d && d ≤ daysInMonth y m then some (y, m, d) else none
    else none
  | _ => none

/-- Python datetime.weekday (Monday = 0, Sunday = 6), via Zeller's congruence. -/
def pyWeekday (y m d : Nat) : Nat :=
  let ym := if m < 3 then (y - 1, m + 12) else (y, m)
  let K := ym.1 % 100
  let J := ym.1 / 100
  let h := (d + 13 * (ym.2 + 1) / 5 + K + K / 4 + J / 4 + 5 * J) % 7
  (h + 5) % 7

/-- Embedding of the Python slice `s[:10]`. -/
def pyTake10 (s : String) : String := String.mk (s.data.take 10)

/-! ## Data model: the JSON ticket dictionaries consumed by the checks.
Keys that the Python code reads with `d.get(k)` or `d[k]` but that a ticket may
lack are Option fields; keys read with `d.get(k, default)` where the default and
an absent value are treated identically by every consumer are flattened. -/

structure Author where
  accountId : String
deriving DecidableEq

structure Comment where
  body : Option String
  created : Option String
deriving DecidableEq

structure Attachment where
  filename : Option String
deriving DecidableEq

structure HistoryItem where
  field : Option String
  fromString : Option String
  toString : Option String
deriving DecidableEq

structure History where
  items : List HistoryItem
deriving DecidableEq

structure Changelog where
  histories : List History
deriving DecidableEq

structure StatusField where
  name : String
deriving DecidableEq

structure IssueTypeField where
  name : String
deriving DecidableEq

structure Fields where
  status : Option StatusField
  summary : Option String
  description : Option String
  issuelinks : List String
  attachment : List Attachment
  comment : Option (List Comment)
  assignee : Option Author
  reporter : Option Author
  labels : List String
  issuetype : Option IssueTypeField
  customField : Option Bool
deriving DecidableEq

structure Ticket where
  key : String
  fields : Fields
  changelog : Option Changelog
  fetch_error : Option String
deriving DecidableEq

/-- Result dictionary returned by every check: status, reason, and the optional
zero_tolerance key (absent means falsy, modelled as false). -/
structure CheckRes where
  status : String
  reason : String
  zero_tolerance : Bool
deriving DecidableEq

/-- Accessor embedding `issue['fields'].get('comment', {}).get('comments', [])`. -/
def commentsOf (t : Ticket) : List Comment := t.fields.comment.getD []

/-- Accessor embedding `issue.get('changelog', {}).get('histories', [])`. -/
def historiesOf (t : Ticket) : List History := (t.changelog.getD ⟨[]⟩).histories

/-- Accessor embedding `issue['fields']['status']['name']`, which raises KeyError
when the fields dictionary has no status entry. -/
def getStatusName (t : Ticket) : Except String String :=
  match t.fields.status with
  | some s => .ok s.name
  | none => .error "KeyError: status"

/-! ## Sheet 1 checks (src/src/compliance/checks.py, core process compliance) -/

/-- MITPlanningCheck.evaluate: 3 to 5 MITs proposed. -/
def MITPlanningCheck.evaluate (issues : List Ticket) : Except String CheckRes :=
  let mit_count := issues.length
  if 3 ≤ mit_count ∧ mit_count ≤ 5 then
    .ok ⟨"Pass", toString mit_count ++ " MITs proposed (Target: 3-5)", false⟩
  else if mit_count < 3 then
    .ok ⟨"Fail", "Only " ++ toString mit_count ++ " MITs proposed (Min: 3)", false⟩
  else
    .ok ⟨"Fail", toString mit_count ++ " MITs proposed (Max: 5)", false⟩

/-- MITCreationCheck.evaluate. -/
def MITCreationCheck.evaluate (_issues : List Ticket) : Except String CheckRes :=
  .ok ⟨"Pass", "All approved MITs exist", false⟩

/-- The list-comprehension of MITCompletionCheck: keys of issues whose status is
not Done, Closed or Cancelled; reading the status raises on a missing key. -/
def mitOpenScan : List Ticket → Except String (List String)
  | [] => .ok []
  | i :: is => do
    let st ← getStatusName i
    let rest ← mitOpenScan is
    if ["Done", "Closed", "Cancelled"].contains st then .ok rest else .ok (i.key :: rest)

/-- MITCompletionCheck.evaluate: were MITs closed? -/
def MITCompletionCheck.evaluate (issues : List Ticket) : Except String CheckRes := do
  let open_mits ← mitOpenScan issues
  if open_mits.isEmpty then
    .ok ⟨"Pass", "All MITs closed", false⟩
  else
    .ok ⟨"Fail", "MITs still open: " ++ joinComma open_mits, false⟩

/-- NonMITTrackingCheck.evaluate: at least 3 active non-MITs. -/
def NonMITTrackingCheck.evaluate (issues : List Ticket) : Except String CheckRes :=
  let count := issues.length
  if count ≥ 3 then
    .ok ⟨"Pass", toString count ++ " active Non-MITs found", false⟩
  else
    .ok ⟨"Fail", "Only " ++ toString count ++ " Non-MITs found (Min: 3)", false⟩

/-- RecapToJiraConversionCheck.evaluate. -/
def RecapToJiraConversionCheck.evaluate (issues : List Ticket) : Except String CheckRes :=
  let linked := issues.filter (fun i => !i.fields.issuelinks.isEmpty)
  if linked.length == issues.length then
    .ok ⟨"Pass", "All items linked", false⟩
  else
    .ok ⟨"Pass", "Assuming compliance for prototype (manual verification needed)", false⟩

/-- The VALID_TRANSITIONS adjacency map of StatusHygieneCheck. -/
def VALID_TRANSITIONS : List (String × List String) :=
  [("To Do", ["In Progress", "Backlog", "Cancelled"]),
   ("Backlog", ["To Do", "In Progress", "Cancelled"]),
   ("In Progress", ["Code Review", "Testing", "In Review", "Done", "To Do", "Blocked", "Cancelled"]),
   ("Code Review", ["In Progress", "Testing", "Done", "Blocked"]),
   ("In Review", ["In Progress", "Testing", "Done", "Blocked"]),
   ("Testing", ["In Progress", "Done", "Code Review", "Blocked"]),
   ("Blocked", ["In Progress", "To Do"]),
   ("Done", ["In Progress"]),
   ("Cancelled", [])]

/-- Dictionary lookup `VALID_TRANSITIONS[from_s]`, also serving the membership
test `from_s in VALID_TRANSITIONS`. -/
def validNext (s : String) : Option (List String) :=
  (VALID_TRANSITIONS.find? (fun p => p.1 == s)).map (fun p => p.2)

/-- Printing of an optional toString value inside the violation f-string; a None
value prints as the text None, as in Python. -/
def pyShowOptStr : Option String → String
  | some s => s
  | none => "None"

/-- The nested loops of StatusHygieneCheck collecting invalid-transition strings. -/
def statusHygieneViolations (issues : List Ticket) : List String :=
  issues.flatMap (fun issue =>
    (historiesOf issue).flatMap (fun h =>
      h.items.filterMap (fun item =>
        if item.field == some "status" then
          match item.fromString with
          | some from_s =>
            match validNext from_s with
            | some nexts =>
              if (match item.toString with
                  | some to_s => nexts.contains to_s
                  | none => false) then
                none
              else
                some (issue.key ++ ": " ++ from_s ++ " -> " ++ pyShowOptStr item.toString)
            | none => none
          | none => none
        else none)))

/-- StatusHygieneCheck.evaluate. -/
def StatusHygieneCheck.evaluate (issues : List Ticket) : Except String CheckRes :=
  if issues.isEmpty then
    .ok ⟨"NA", "No issues active", false⟩
  else
    let violations := statusHygieneViolations issues
    if violations.isEmpty then
      .ok ⟨"Pass", "All status transitions valid", false⟩
    else
      .ok ⟨"Fail", "Invalid transitions: " ++ joinComma (violations.take 3), false⟩

/-- APPROVAL_KEYWORDS of CancellationCheck. -/
def APPROVAL_KEYWORDS : List String :=
  ["approved", "approval", "authorize", "confirmed", "ok to cancel", "cancel ok"]

/-- One comment carries approval evidence: some keyword occurs in the lowered body. -/
def hasApprovalKeyword (c : Comment) : Bool :=
  APPROVAL_KEYWORDS.any (fun k => strIn k (strLower (c.body.getD "")))

/-- The loop of CancellationCheck collecting cancelled tickets without approval;
reading the status of any ticket raises on a missing key. -/
def cancellationScan : List Ticket → Except String (List String)
  | [] => .ok []
  | issue :: rest => do
    let st ← getStatusName issue
    let tail ← cancellationScan rest
    if st == "Cancelled" then
      if (commentsOf issue).any hasApprovalKeyword then .ok tail
      else .ok (issue.key :: tail)
    else .ok tail

/-- CancellationCheck.evaluate: tasks cancelled without approval (zero tolerance). -/
def CancellationCheck.evaluate (issues : List Ticket) : Except String CheckRes := do
  let unauthorized ← cancellationScan issues
  if unauthorized.isEmpty then
    .ok ⟨"Pass", "No unauthorized cancellations", false⟩
  else
    .ok ⟨"Fail", "Cancelled w/o approval: " ++ joinComma unauthorized, true⟩

/-- Weekday of one comment: embeds `c.get('created')[:10]` followed by strptime
and datetime.weekday; a missing created key is a raised TypeError and an
unparseable prefix a raised ValueError. -/
def commentWeekday (c : Comment) : Except String Nat :=
  match c.created with
  | none => .error "TypeError: NoneType is not subscriptable"
  | some s =>
    match strptime_Ymd (pyTake10 s) with
    | none => .error "ValueError: time data does not match format"
    | some ymd => .ok (pyWeekday ymd.1 ymd.2.1 ymd.2.2)

/-- Inner comment loop of UpdateFrequencyCheck, threading the wed and fri flags. -/
def updateScanComments : List Comment → Bool × Bool → Except String (Bool × Bool)
  | [], wf => .ok wf
  | c :: cs, (w, f) => do
    let wd ← commentWeekday c
    updateScanComments cs (w || wd == 2, f || wd == 4)

/-- Outer issue loop of UpdateFrequencyCheck. -/
def updateScanIssues : List Ticket → Bool × Bool → Except String (Bool × Bool)
  | [], wf => .ok wf
  | i :: is, wf => do
    let wf2 ← updateScanComments (commentsOf i) wf
    updateScanIssues is wf2

/-- UpdateFrequencyCheck.evaluate: updates shared on Wednesday and Friday. -/
def UpdateFrequencyCheck.evaluate (issues : List Ticket) : Except String CheckRes := do
  let wf ← updateScanIssues issues (false, false)
  if wf.1 && wf.2 then
    .ok ⟨"Pass", "Updates on Wed and Fri", false⟩
  else if wf.1 || wf.2 then
    .ok ⟨"Fail", "Missed one update day", false⟩
  else
    .ok ⟨"Fail", "No updates on Wed/Fri", false⟩

/-- The loop of RoleOwnershipCheck collecting role errors. -/
def roleErrors (issues : List Ticket) : List String :=
  issues.filterMap (fun issue =>
    match issue.fields.assignee with
    | none => some (issue.key ++ ": No assignee")
    | some a =>
      match issue.fields.reporter with
      | none => some (issue.key ++ ": No reporter")
      | some r =>
        if a.accountId == r.accountId then some (issue.key ++ ": Reporter=Assignee")
        else none)

/-- RoleOwnershipCheck.evaluate. -/
def RoleOwnershipCheck.evaluate (issues : List Ticket) : Except String CheckRes :=
  let errors := roleErrors issues
  if errors.isEmpty then
    .ok ⟨"Pass", "Roles correct", false⟩
  else
    .ok ⟨"Fail", "Role issues: " ++ joinComma (errors.take 3), false⟩

/-- The loop of DocumentationCheck collecting tickets with incomplete metadata. -/
def docMissing (issues : List Ticket) : List String :=
  issues.filterMap (fun issue =>
    let desc := issue.fields.description.getD ""
    let has_desc := decide (desc.length > 20)
    let has_links := !issue.fields.issuelinks.isEmpty
    let has_attachments := !issue.fields.attachment.isEmpty
    if !(has_desc && (has_links || has_attachments)) then some issue.key else none)

/-- DocumentationCheck.evaluate. -/
def DocumentationCheck.evaluate (issues : List Ticket) : Except String CheckRes :=
  let missing := docMissing issues
  if missing.isEmpty then
    .ok ⟨"Pass", "Metadata complete", false⟩
  else
    .ok ⟨"Fail", "Incomplete docs: " ++ joinComma (missing.take 3), false⟩

/-- Distinct statuses reached according to the changelog (the membership test of
LifecycleCheck only ever asks for In Progress, so None entries are immaterial). -/
def seenStatuses (issue : Ticket) : List String :=
  (historiesOf issue).flatMap (fun h =>
    h.items.filterMap (fun item =>
      if item.field == some "status" then item.toString else none))

/-- The loop of LifecycleCheck collecting Done tickets that skipped In Progress;
reading the current status raises on a missing key. -/
def lifecycleScan : List Ticket → Except String (List String)
  | [] => .ok []
  | issue :: rest => do
    let seen := seenStatuses issue
    let st ← getStatusName issue
    let tail ← lifecycleScan rest
    if st == "Done" && !(seen.contains "In Progress") then
      .ok ((issue.key ++ ": Skipped In Progress") :: tail)
    else .ok tail

/-- LifecycleCheck.evaluate. -/
def LifecycleCheck.evaluate (issues : List Ticket) : Except String CheckRes := do
  let violations ← lifecycleScan issues
  if violations.isEmpty then
    .ok ⟨"Pass", "SOP followed", false⟩
  else
    .ok ⟨"Fail", "Lifecycle skips: " ++ joinComma (violations.take 3), false⟩

/-- ZeroToleranceCheck.evaluate (legacy wrapper). -/
def ZeroToleranceCheck.evaluate (_issues : List Ticket) : Except String CheckRes :=
  .ok ⟨"NA", "Handled by individual checks", false⟩

/-! ## Configuration (the resolved values the checks read from
config/compliance_criteria.yaml through self.config and _get_criterion_config) -/

structure MITIdentification where
  method : String
  label_name : String
  issue_type_name : String
  naming_pattern : String
deriving DecidableEq

structure Settings where
  zero_tolerance_stops_evaluation : Bool
  mit_identification : MITIdentification
deriving DecidableEq

structure Config where
  settings : Settings
  comment_quality_min_word_count : Nat
  description_quality_min_length : Nat
  title_quality_avoid_generic : List String
  zero_tolerance_criteria : List String
deriving DecidableEq

/-! ## Sheet 2 checks (src/src/compliance/checks.py, manual compliance heuristics) -/

/-- CommentQualityCheck.evaluate. -/
def CommentQualityCheck.evaluate (cfg : Config) (issues : List Ticket) :
    Except String CheckRes :=
  let min_words := cfg.comment_quality_min_word_count
  let bad_comments := issues.filterMap (fun issue =>
    if (commentsOf issue).any (fun c => wordCount (c.body.getD "") < min_words) then
      some issue.key
    else none)
  if bad_comments.isEmpty then
    .ok ⟨"Pass", "Comments are substantial", false⟩
  else
    .ok ⟨"Fail", "Short/vague comments in " ++ joinComma (bad_comments.take 3), false⟩

/-- MissingCommentsCheck.evaluate. -/
def MissingCommentsCheck.evaluate (issues : List Ticket) : Except String CheckRes :=
  let no_comments := issues.filterMap (fun issue =>
    if (commentsOf issue).isEmpty then some issue.key else none)
  if no_comments.isEmpty then
    .ok ⟨"Pass", "Comments present", false⟩
  else
    .ok ⟨"Fail", "No comments on: " ++ joinComma (no_comments.take 3), false⟩

/-- The short-circuiting generator `any(a['filename'].endswith(('.png', '.jpg'))
for a in attachments)`: reading a missing filename key raises, but only when the
generator advances that far. -/
def anyScreenshot : List Attachment → Except String Bool
  | [] => .ok false
  | a :: as => do
    match a.filename with
    | none => .error "KeyError: filename"
    | some fn =>
      if strEndsWith fn ".png" || strEndsWith fn ".jpg" then .ok true
      else anyScreenshot as

/-- The loop of ScreenshotOnlyEvidenceCheck. -/
def screenshotScan : List Ticket → Except String (List String)
  | [] => .ok []
  | issue :: rest => do
    let has_screenshot ← anyScreenshot issue.fields.attachment
    let tail ← screenshotScan rest
    if has_screenshot && (commentsOf issue).isEmpty then .ok (issue.key :: tail)
    else .ok tail

/-- ScreenshotOnlyEvidenceCheck.evaluate. -/
def ScreenshotOnlyEvidenceCheck.evaluate (issues : List Ticket) : Except String CheckRes := do
  let violations ← screenshotScan issues
  if violations.isEmpty then
    .ok ⟨"Pass", "Evidence explained", false⟩
  else
    .ok ⟨"Fail", "Screenshot w/o explanation: " ++ joinComma (violations.take 3), false⟩

/-- DocLinkOnlyEvidenceCheck.evaluate. -/
def DocLinkOnlyEvidenceCheck.evaluate (_issues : List Ticket) : Except String CheckRes :=
  .ok ⟨"Pass", "Heuristic pass (manual review)", false⟩

/-- DescriptionQualityCheck.evaluate. -/
def DescriptionQualityCheck.evaluate (cfg : Config) (issues : List Ticket) :
    Except String CheckRes :=
  let min_len := cfg.description_quality_min_length
  let poor_desc := issues.filterMap (fun issue =>
    if (issue.fields.description.getD "").length < min_len then some issue.key else none)
  if poor_desc.isEmpty then
    .ok ⟨"Pass", "Descriptions detailed", false⟩
  else
    .ok ⟨"Fail", "Weak description: " ++ joinComma (poor_desc.take 3), false⟩

/-- The loop of TitleQualityCheck; `issue['fields']['summary']` raises on a
missing summary key. -/
def titleScan (bad_words : List String) : List Ticket → Except String (List String)
  | [] => .ok []
  | issue :: rest => do
    let summary ← match issue.fields.summary with
      | some s => Except.ok (strLower s)
      | none => Except.error "KeyError: summary"
    let tail ← titleScan bad_words rest
    if bad_words.any (fun w => strIn w summary) || summary.length < 10 then
      .ok (issue.key :: tail)
    else .ok tail

/-- TitleQualityCheck.evaluate. -/
def TitleQualityCheck.evaluate (cfg : Config) (issues : List Ticket) :
    Except String CheckRes := do
  let bad_titles ← titleScan cfg.title_quality_avoid_generic issues
  if bad_titles.isEmpty then
    .ok ⟨"Pass", "Titles specific", false⟩
  else
    .ok ⟨"Fail", "Vague title: " ++ joinComma (bad_titles.take 3), false⟩

/-- MultipleIssuesCheck.evaluate. -/
def MultipleIssuesCheck.evaluate (_issues : List Ticket) : Except String CheckRes :=
  .ok ⟨"Pass", "Single issue per ticket assumed", false⟩

/-- HistoryIntegrityCheck.evaluate: its suspicious list is never populated, so
the check always passes. -/
def HistoryIntegrityCheck.evaluate (_issues : List Ticket) : Except String CheckRes :=
  .ok ⟨"Pass", "History looks organic", false⟩

/-- AcceptanceCriteriaRelevanceCheck.evaluate. -/
def AcceptanceCriteriaRelevanceCheck.evaluate (_issues : List Ticket) :
    Except String CheckRes :=
  .ok ⟨"Pass", "AC present", false⟩

/-- ProductivityValidityCheck.evaluate. -/
def ProductivityValidityCheck.evaluate (_issues : List Ticket) : Except String CheckRes :=
  .ok ⟨"Pass", "Productivity valid", false⟩

/-- EvidenceRelevanceCheck.evaluate. -/
def EvidenceRelevanceCheck.evaluate (_issues : List Ticket) : Except String CheckRes :=
  .ok ⟨"Pass", "Evidence relevant", false⟩

/-! ## Legacy employee-week builder (src/src/reports/compliance_builder.py) -/

/-- ComplianceReportBuilder._map_result_to_legacy_format. -/
def ComplianceReportBuilder.map_result_to_legacy_format (result : CheckRes)
    (check_name : String) : String :=
  let status := result.status
  let reason := result.reason
  if status == "Pass" then
    if check_name == "cancellation" then "No"
    else if check_name == "zero_tolerance" then "No"
    else "Yes"
  else if status == "Fail" then
    if check_name == "cancellation" then "Yes - " ++ reason
    else if check_name == "zero_tolerance" then "Yes"
    else "No - " ++ reason
  else "NA"

/-- One mapped entry makes _calculate_overall_compliance return Fail: the string
starts with No, or the zero_tolerance entry is Yes, or the entry is Error. -/
def legacyEntryTriggersFail (e : String × String) : Bool :=
  strStartsWith e.2 "No" || (e.1 == "zero_tolerance" && e.2 == "Yes") || e.2 == "Error"

/-- ComplianceReportBuilder._calculate_overall_compliance, iterating the results
dictionary in insertion order. -/
def ComplianceReportBuilder.calculate_overall_compliance : List (String × String) → String
  | [] => "Pass"
  | (check_name, result) :: rest =>
    if strStartsWith result "No" then "Fail"
    else if check_name == "zero_tolerance" && result == "Yes" then "Fail"
    else if result == "Error" then "Fail"
    else ComplianceReportBuilder.calculate_overall_compliance rest

/-! ## Per-ticket audit orchestrator (src/src/reports/audit_report_builder.py) -/

/-- AuditReportBuilder._is_mit_ticket. -/
def AuditReportBuilder.is_mit_ticket (cfg : Config) (ticket : Ticket) : Bool :=
  let mit_config := cfg.settings.mit_identification
  let method := mit_config.method
  let fields := ticket.fields
  if method == "label" then
    fields.labels.contains mit_config.label_name
  else if method == "custom_field" then
    fields.customField == some true
  else if method == "issue_type" then
    ((fields.issuetype.map (fun it => it.name)).getD "") == mit_config.issue_type_name
  else if method == "naming_pattern" then
    strIn mit_config.naming_pattern (strUpper (fields.summary.getD ""))
  else
    false

/-- The core_checks dictionary of _initialize_compliance_checks, in insertion
order, each check applied to a ticket list. -/
def core_checks (_cfg : Config) : List (String × (List Ticket → Except String CheckRes)) :=
  [("mit_planning", MITPlanningCheck.evaluate),
   ("mit_creation", MITCreationCheck.evaluate),
   ("mit_completion", MITCompletionCheck.evaluate),
   ("non_mit_tracking", NonMITTrackingCheck.evaluate),
   ("recap_to_jira_conversion", RecapToJiraConversionCheck.evaluate),
   ("status_hygiene", StatusHygieneCheck.evaluate),
   ("task_cancellation", CancellationCheck.evaluate),
   ("weekly_updates", UpdateFrequencyCheck.evaluate),
   ("roles_and_access", RoleOwnershipCheck.evaluate),
   ("documentation_traceability", DocumentationCheck.evaluate),
   ("lifecycle_adherence", LifecycleCheck.evaluate)]

/-- The manual_checks dictionary of _initialize_compliance_checks, in insertion
order. -/
def manual_checks (cfg : Config) : List (String × (List Ticket → Except String CheckRes)) :=
  [("comment_quality", CommentQualityCheck.evaluate cfg),
   ("missing_comments", MissingCommentsCheck.evaluate),
   ("screenshot_only_evidence", ScreenshotOnlyEvidenceCheck.evaluate),
   ("doc_link_only_evidence", DocLinkOnlyEvidenceCheck.evaluate),
   ("description_quality", DescriptionQualityCheck.evaluate cfg),
   ("title_quality", TitleQualityCheck.evaluate cfg),
   ("multiple_issues_in_one_ticket", MultipleIssuesCheck.evaluate),
   ("history_integrity", HistoryIntegrityCheck.evaluate),
   ("acceptance_criteria_relevance", AcceptanceCriteriaRelevanceCheck.evaluate),
   ("productivity_validity", ProductivityValidityCheck.evaluate),
   ("evidence_relevance", EvidenceRelevanceCheck.evaluate)]

/-- The MIT-only criteria skipped for non-MIT tickets in _evaluate_ticket. -/
def isMitOnlyCheck (check_id : String) : Bool :=
  ["mit_planning", "mit_creation", "mit_completion"].contains check_id

/-- One subject's audit outcome as assembled by _evaluate_ticket. -/
structure AuditRes where
  issue_key : String
  overall_status : String
  criteria_results : List (String × CheckRes)
  zero_tolerance_violations : List (String × String)
deriving DecidableEq

/-- AuditReportBuilder._calculate_overall_status. -/
def AuditReportBuilder.calculate_overall_status (criteria_results : List (String × CheckRes))
    (zero_tolerance_violations : List (String × String)) : String :=
  if !zero_tolerance_violations.isEmpty then "ZERO_TOLERANCE_FAIL"
  else if criteria_results.any (fun p => p.2.status == "Fail") then "NON-COMPLIANT"
  else "COMPLIANT"

/-- The core-check loop of _evaluate_ticket: the MIT-applicability NA entries are
recorded even after a zero-tolerance stop, while evaluation itself is guarded by
the stop flag. -/
def runCoreChecks (cfg : Config) (ticket : Ticket) (is_mit : Bool) :
    List (String × (List Ticket → Except String CheckRes)) →
    List (String × CheckRes) × List (String × String) × Bool →
    Except String (List (String × CheckRes) × List (String × String) × Bool)
  | [], st => .ok st
  | (check_id, check) :: rest, (results, viols, stop) =>
    if isMitOnlyCheck check_id && !is_mit then
      runCoreChecks cfg ticket is_mit rest
        (results ++ [(check_id, ⟨"NA", "Not a MIT ticket", false⟩)], viols, stop)
    else if check_id == "non_mit_tracking" && is_mit then
      runCoreChecks cfg ticket is_mit rest
        (results ++ [(check_id, ⟨"NA", "MIT ticket", false⟩)], viols, stop)
    else if stop then
      runCoreChecks cfg ticket is_mit rest (results, viols, stop)
    else do
      let r ← check [ticket]
      if r.zero_tolerance && r.status == "Fail" then
        runCoreChecks cfg ticket is_mit rest
          (results ++ [(check_id, r)], viols ++ [(check_id, r.reason)],
           cfg.settings.zero_tolerance_stops_evaluation)
      else
        runCoreChecks cfg ticket is_mit rest (results ++ [(check_id, r)], viols, stop)

/-- The manual-check loop of _evaluate_ticket: entered only when the stop flag is
clear, and then run to completion (no per-iteration stop test). -/
def runManualChecks (cfg : Config) (ticket : Ticket) :
    List (String × (List Ticket → Except String CheckRes)) →
    List (String × CheckRes) × List (String × String) →
    Except String (List (String × CheckRes) × List (String × String))
  | [], st => .ok st
  | (check_id, check) :: rest, (results, viols) => do
    let r ← check [ticket]
    if r.zero_tolerance && r.status == "Fail" then
      runManualChecks cfg ticket rest (results ++ [(check_id, r)], viols ++ [(check_id, r.reason)])
    else
      runManualChecks cfg ticket rest (results ++ [(check_id, r)], viols)

/-- AuditReportBuilder._evaluate_ticket. -/
def AuditReportBuilder.evaluate_ticket (cfg : Config) (ticket : Ticket) :
    Except String AuditRes :=
  match ticket.fetch_error with
  | some _ => .ok ⟨ticket.key, "ERROR", [], []⟩
  | none => do
    let is_mit := AuditReportBuilder.is_mit_ticket cfg ticket
    let core ← runCoreChecks cfg ticket is_mit (core_checks cfg) ([], [], false)
    let final ←
      if core.2.2 then Except.ok (core.1, core.2.1)
      else runManualChecks cfg ticket (manual_checks cfg) (core.1, core.2.1)
    .ok ⟨ticket.key, AuditReportBuilder.calculate_overall_status final.1 final.2,
         final.1, final.2⟩

/-! ## Aggregation (_generate_executive_summary and _generate_recommendations) -/

/-- Executive summary record; compliance_rate is the exact rational value of the
Python percentage expression. -/
structure ExecutiveSummary where
  total_audited : Nat
  compliant_count : Nat
  non_compliant_count : Nat
  zero_tolerance_count : Nat
  compliance_rate : ℚ
deriving DecidableEq

/-- AuditReportBuilder._generate_executive_summary (the verdict tallies and the
rate; the zero-tolerance index is not needed by any claim under audit). -/
def AuditReportBuilder.generate_executive_summary (audit_results : List AuditRes) :
    ExecutiveSummary :=
  let total := audit_results.length
  let compliant := (audit_results.filter (fun r => r.overall_status == "COMPLIANT")).length
  let non_compliant :=
    (audit_results.filter (fun r => r.overall_status == "NON-COMPLIANT")).length
  let zt := (audit_results.filter (fun r => r.overall_status == "ZERO_TOLERANCE_FAIL")).length
  { total_audited := total
    compliant_count := compliant
    non_compliant_count := non_compliant
    zero_tolerance_count := zt
    compliance_rate := if total > 0 then (compliant : ℚ) / (total : ℚ) * 100 else 0 }

/-- Modelled from the spec: the compliance-rate formula the claim describes, with
Error-verdict subjects excluded from the denominator but kept in raw counts. -/
def spec_compliance_rate_error_excluded (audit_results : List AuditRes) : ℚ :=
  let compliant := (audit_results.filter (fun r => r.overall_status == "COMPLIANT")).length
  let counted := (audit_results.filter (fun r => r.overall_status != "ERROR")).length
  if counted > 0 then (compliant : ℚ) / (counted : ℚ) * 100 else 0

/-- One example failure attached to a recommendation. -/
structure FailEx where
  issue_key : String
  reason : String
deriving DecidableEq

/-- Recording one Fail occurrence in the failure_counts and failure_examples
dictionaries: a known criterion is incremented in place, a new one appended. -/
def addFailure (acc : List (String × Nat × List FailEx)) (crit : String) (ex : FailEx) :
    List (String × Nat × List FailEx) :=
  match acc with
  | [] => [(crit, 1, [ex])]
  | (c, n, exs) :: rest =>
    if c == crit then (c, n + 1, exs ++ [ex]) :: rest
    else (c, n, exs) :: addFailure rest crit ex

/-- The inner loop of _generate_recommendations over one subject's criteria. -/
def collectFromCriteria (key : String) :
    List (String × CheckRes) → List (String × Nat × List FailEx) →
    List (String × Nat × List FailEx)
  | [], acc => acc
  | p :: ps, acc =>
    collectFromCriteria key ps
      (if p.2.status == "Fail" then addFailure acc p.1 ⟨key, p.2.reason⟩ else acc)

/-- The outer loop of _generate_recommendations over all audit results. -/
def collectFailures : List AuditRes → List (String × Nat × List FailEx) →
    List (String × Nat × List FailEx)
  | [], acc => acc
  | r :: rs, acc => collectFailures rs (collectFromCriteria r.issue_key r.criteria_results acc)

/-- Stable insertion of one entry into a count-descending list: the new entry
goes after every entry with an equal or larger count, which is exactly how
Python sorted with reverse=True places equal keys. -/
def insertByCount (x : String × Nat × List FailEx) :
    List (String × Nat × List FailEx) → List (String × Nat × List FailEx)
  | [] => [x]
  | y :: ys => if y.2.1 ≥ x.2.1 then y :: insertByCount x ys else x :: y :: ys

/-- Left-to-right stable sort by descending count, embedding
`sorted(failure_counts.items(), key=lambda x: x[1], reverse=True)`. -/
def sortFailuresDesc : List (String × Nat × List FailEx) →
    List (String × Nat × List FailEx) → List (String × Nat × List FailEx)
  | [], acc => acc
  | x :: xs, acc => sortFailuresDesc xs (insertByCount x acc)

/-- One recommendation row (the fields the audited claims speak about). -/
structure Recommendation where
  criterion : String
  failed_count : Nat
  priority : String
  examples : List FailEx
deriving DecidableEq

/-- AuditReportBuilder._generate_recommendations. -/
def AuditReportBuilder.generate_recommendations (cfg : Config)
    (audit_results : List AuditRes) : List Recommendation :=
  (sortFailuresDesc (collectFailures audit_results []) []).map (fun e =>
    let is_zero_tolerance := cfg.zero_tolerance_criteria.contains e.1
    { criterion := e.1
      failed_count := e.2.1
      priority :=
        if is_zero_tolerance then "CRITICAL"
        else if e.2.1 > 3 then "HIGH" else "MEDIUM"
      examples := e.2.2.take 3 })

/-! ## Derived observables and well-formedness of the raw ticket data -/

/-- Some comment of the list parses to the given Python weekday. -/
def commentsHaveWeekday (cs : List Comment) (d : Nat) : Bool :=
  cs.any (fun c =>
    match commentWeekday c with
    | .ok wd => wd == d
    | .error _ => false)

/-- Some comment of some ticket falls on the given Python weekday. -/
def hasWeekdayComment (issues : List Ticket) (d : Nat) : Bool :=
  issues.any (fun i => commentsHaveWeekday (commentsOf i) d)

/-- A comment whose created value is present and whose first ten characters
parse as a date. -/
def wellFormedComment (c : Comment) : Bool :=
  match c.created with
  | some s => (strptime_Ymd (pyTake10 s)).isSome
  | none => false

/-- The raw-data shape on which every check of checks.py runs to completion:
status and summary keys present, every comment dated, every attachment named. -/
def wellFormedTicket (t : Ticket) : Bool :=
  t.fields.status.isSome && t.fields.summary.isSome &&
  (commentsOf t).all wellFormedComment &&
  t.fields.attachment.all (fun a => a.filename.isSome)

/-! ## Concrete fixtures used by counterexamples and witnesses -/

/-- A fields dictionary with every optional key absent and every list empty. -/
def emptyFields : Fields :=
  ⟨none, none, none, [], [], none, none, none, [], none, none⟩

/-- A configuration with label-based MIT identification and the default
heuristic thresholds of config/compliance_criteria.yaml. -/
def cfg0 : Config :=
  ⟨⟨true, ⟨"label", "MIT", "Task", "MIT"⟩⟩, 5, 30, ["task", "update"],
   ["task_cancellation", "history_integrity"]⟩

/-- A cancelled ticket with no comments and no changelog. -/
def cancelledBareTicket : Ticket :=
  ⟨"T-1", { emptyFields with status := some ⟨"Cancelled"⟩ }, none, none⟩

/-- A ticket whose single comment lacks the created key. -/
def undatedCommentTicket : Ticket :=
  ⟨"T-2",
   { emptyFields with
       status := some ⟨"To Do"⟩
       summary := some "a perfectly fine ticket title"
       comment := some [⟨some "progress update with several words here", none⟩] },
   none, none⟩

/-- A well-formed ticket: dated comment, status and summary present. -/
def wellFormedFixtureTicket : Ticket :=
  ⟨"T-3",
   { emptyFields with
       status := some ⟨"Done"⟩
       summary := some "implement the widget correctly"
       description := some "a description that is long enough to pass the bar"
       issuelinks := ["T-1"]
       comment := some [⟨some "merged the change and deployed it today",
                         some "2024-01-03T09:00:00.000+0000"⟩] },
   none, none⟩

/-- A ticket carrying the upstream fetch-error sentinel. -/
def fetchErrorTicket : Ticket :=
  ⟨"T-9", emptyFields, none, some "HTTP 500"⟩

/-- A ticket with one comment on a Wednesday (2024-01-03). -/
def wednesdayTicket : Ticket :=
  ⟨"T-4",
   { emptyFields with
       status := some ⟨"In Progress"⟩
       summary := some "weekly status thread"
       comment := some [⟨some "mid-week update", some "2024-01-03T09:00:00.000+0000"⟩] },
   none, none⟩

/-- A ticket with one comment on a Friday (2024-01-05). -/
def fridayTicket : Ticket :=
  ⟨"T-5",
   { emptyFields with
       status := some ⟨"In Progress"⟩
       summary := some "weekly status thread"
       comment := some [⟨some "end-of-week update", some "2024-01-05T17:00:00.000+0000"⟩] },
   none, none⟩

/-- Audit result fixtures for the aggregation claims. -/
def compliantRes : AuditRes := ⟨"T-1", "COMPLIANT", [], []⟩

def errorRes : AuditRes := ⟨"T-2", "ERROR", [], []⟩

/-- A subject failing only the weekly_updates criterion. -/
def weeklyFailRes : AuditRes :=
  ⟨"T-1", "NON-COMPLIANT",
   [("weekly_updates", ⟨"Fail", "No updates on Wed/Fri", false⟩)], []⟩

/-- A subject failing only the status_hygiene criterion. -/
def hygieneFailRes : AuditRes :=
  ⟨"T-2", "NON-COMPLIANT",
   [("status_hygiene", ⟨"Fail", "Invalid transitions: T-2: To Do -> Done", false⟩)], []⟩

/-- A configuration classifying MITs by a lower-case naming-pattern token. -/
def cfgLowerToken : Config :=
  ⟨⟨true, ⟨"naming_pattern", "MIT", "Task", "mit"⟩⟩, 5, 30, ["task", "update"], []⟩

/-- A configuration classifying MITs by the upper-case naming-pattern token. -/
def cfgUpperToken : Config :=
  ⟨⟨true, ⟨"naming_pattern", "MIT", "Task", "MIT"⟩⟩, 5, 30, ["task", "update"], []⟩

/-- A configuration with an unrecognized MIT identification method. -/
def cfgBogusMethod : Config :=
  ⟨⟨true, ⟨"bogus", "MIT", "Task", "MIT"⟩⟩, 5, 30, ["task", "update"], []⟩

/-- A ticket whose summary contains the token mit in lower case. -/
def lowerMitTicket : Ticket :=
  ⟨"T-6", { emptyFields with summary := some "mit work" }, none, none⟩

/-- A ticket whose summary contains the token MIT in mixed-case text. -/
def upperMitTicket : Ticket :=
  ⟨"T-7", { emptyFields with summary := some "do MIT now" }, none, none⟩

/-! ## Helper lemmas -/

/-- Whenever the Cancellation check returns a result, that result is Pass or a
zero-tolerance Fail; no other outcome exists in the code. -/
theorem cancellation_result_shape (issues : List Ticket) (r : CheckRes)
    (h : CancellationCheck.evaluate issues = .ok r) :
    r = ⟨"Pass", "No unauthorized cancellations", false⟩ ∨
      (r.status = "Fail" ∧ r.zero_tolerance = true) := by
  unfold CancellationCheck.evaluate at h
  cases hscan : cancellationScan issues with
  | error e =>
    rw [hscan] at h
    exact absurd h (by simp [Bind.bind, Except.bind])
  | ok u =>
    rw [hscan] at h
    simp only [Bind.bind, Except.bind] at h
    by_cases hu : u.isEmpty
    · simp only [hu, if_true, Except.ok.injEq] at h
      exact Or.inl h.symm
    · simp only [hu, if_false, Bool.false_eq_true, Except.ok.injEq] at h
      right
      rw [← h]
      exact ⟨rfl, rfl⟩

/-- A cancelled ticket with an empty comment list scans as unauthorized. -/
theorem cancellationScan_cancelled_no_comments (t : Ticket)
    (hst : t.fields.status = some ⟨"Cancelled"⟩) (hc : commentsOf t = []) :
    cancellationScan [t] = .ok [t.key] := by
  unfold cancellationScan
  simp [getStatusName, hst, hc, Bind.bind, Except.bind, cancellationScan]

/-! ## Claim C1 -/

/-- Claim C1, counterexample. The claim asserts that a cancelled ticket whose
comment list is empty and whose changelog is absent yields Unknown with
CriticalUnknown severity. On the code, CancellationCheck.evaluate on exactly
that ticket returns status Fail (with the zero_tolerance flag), and the string
Unknown is not a possible status: the three-outcome model does not exist. -/
theorem c1_counterexample :
    CancellationCheck.evaluate [cancelledBareTicket] =
      .ok ⟨"Fail", "Cancelled w/o approval: T-1", true⟩ ∧
    "Fail" ≠ "Unknown" := by
  exact ⟨rfl, by decide⟩

/-- Claim C1, amended: the Cancellation check has exactly two outcomes, Pass
(some comment of every cancelled ticket contains an approval keyword) and Fail
with zero_tolerance; a cancelled ticket with an empty comment list (changelog is
never consulted) yields Fail plus zero_tolerance — never Pass and never an
Unknown outcome. -/
theorem c1_cancellation_two_outcomes_and_bare_cancel_fails :
    (∀ (issues : List Ticket) (r : CheckRes),
      CancellationCheck.evaluate issues = .ok r →
        r.status = "Pass" ∨ (r.status = "Fail" ∧ r.zero_tolerance = true)) ∧
    (∀ t : Ticket, t.fields.status = some ⟨"Cancelled"⟩ → commentsOf t = [] →
      CancellationCheck.evaluate [t] =
        .ok ⟨"Fail", "Cancelled w/o approval: " ++ t.key, true⟩) := by
  constructor
  · intro issues r h
    rcases cancellation_result_shape issues r h with h1 | h2
    · left; rw [h1]
    · exact Or.inr h2
  · intro t hst hc
    unfold CancellationCheck.evaluate
    rw [cancellationScan_cancelled_no_comments t hst hc]
    simp [Bind.bind, Except.bind, joinComma]

/-- Claim C1, witness: the amended theorem applied to the concrete cancelled
ticket with no comments. -/
theorem c1_witness :
    CancellationCheck.evaluate [cancelledBareTicket] =
      .ok ⟨"Fail", "Cancelled w/o approval: " ++ cancelledBareTicket.key, true⟩ ∧
    ("Pass" = "Pass" ∨ ("Pass" = "Fail" ∧ false = true)) := by
  refine ⟨c1_cancellation_two_outcomes_and_bare_cancel_fails.2 cancelledBareTicket rfl rfl, ?_⟩
  exact c1_cancellation_two_outcomes_and_bare_cancel_fails.1 []
    ⟨"Pass", "No unauthorized cancellations", false⟩ rfl

/-! ## Claim C2 -/

/-- Claim C2: with a non-empty zero-tolerance violation list the overall verdict
is ZERO_TOLERANCE_FAIL regardless of the criterion results; with an empty list
the verdict is NON-COMPLIANT exactly when some criterion result is Fail and
COMPLIANT exactly when none is; and the verdict a ticket evaluation reports is
exactly this function of its recorded results and violations. -/
theorem c2_overall_verdict :
    (∀ (results : List (String × CheckRes)) (viols : List (String × String)),
      viols ≠ [] →
        AuditReportBuilder.calculate_overall_status results viols = "ZERO_TOLERANCE_FAIL") ∧
    (∀ results : List (String × CheckRes),
      (AuditReportBuilder.calculate_overall_status results [] = "NON-COMPLIANT" ↔
        ∃ p ∈ results, p.2.status = "Fail") ∧
      (AuditReportBuilder.calculate_overall_status results [] = "COMPLIANT" ↔
        ¬ ∃ p ∈ results, p.2.status = "Fail")) ∧
    (∀ (cfg : Config) (t : Ticket) (res : AuditRes),
      t.fetch_error = none →
      AuditReportBuilder.evaluate_ticket cfg t = .ok res →
        res.overall_status =
          AuditReportBuilder.calculate_overall_status res.criteria_results
            res.zero_tolerance_violations) := by
  refine ⟨?_, ?_, ?_⟩
  · intro results viols hv
    unfold AuditReportBuilder.calculate_overall_status
    cases viols with
    | nil => exact absurd rfl hv
    | cons a l => simp
  · intro results
    have hiff : results.any (fun p => p.2.status == "Fail") = true ↔
        ∃ p ∈ results, p.2.status = "Fail" := by
      simp [List.any_eq_true]
    by_cases h : results.any (fun p => p.2.status == "Fail")
    · have hval : AuditReportBuilder.calculate_overall_status results [] =
          "NON-COMPLIANT" := by
        simp [AuditReportBuilder.calculate_overall_status, h]
      rw [hval]
      exact ⟨⟨fun _ => hiff.mp h, fun _ => rfl⟩,
        ⟨fun hc => absurd hc (by decide), fun hno => absurd (hiff.mp h) hno⟩⟩
    · have hno : ¬ ∃ p ∈ results, p.2.status = "Fail" := fun he => h (hiff.mpr he)
      have hval : AuditReportBuilder.calculate_overall_status results [] =
          "COMPLIANT" := by
        simp [AuditReportBuilder.calculate_overall_status, h]
      rw [hval]
      exact ⟨⟨fun hc => absurd hc (by decide), fun he => absurd he hno⟩,
        ⟨fun _ => hno, fun _ => rfl⟩⟩
  · intro cfg t res hfe hok
    unfold AuditReportBuilder.evaluate_ticket at hok
    rw [hfe] at hok
    simp only [Bind.bind, Except.bind] at hok
    cases hcore : runCoreChecks cfg t (AuditReportBuilder.is_mit_ticket cfg t)
        (core_checks cfg) ([], [], false) with
    | error e => rw [hcore] at hok; cases hok
    | ok core =>
      rw [hcore] at hok
      by_cases hstop : core.2.2
      · simp only [hstop, if_true] at hok
        cases hok
        rfl
      · simp only [hstop, if_false] at hok
        cases hman : runManualChecks cfg t (manual_checks cfg) (core.1, core.2.1) with
        | error e => rw [hman] at hok; cases hok
        | ok fin => rw [hman] at hok; cases hok; rfl

/-- Claim C2, witness: the three parts of the theorem applied at concrete
inputs — one violation forces ZERO_TOLERANCE_FAIL, a lone Fail entry gives
NON-COMPLIANT, and the evaluation of a concrete well-formed ticket reports
exactly the computed overall verdict. -/
theorem c2_witness :
    AuditReportBuilder.calculate_overall_status [] [("task_cancellation", "r")] =
      "ZERO_TOLERANCE_FAIL" ∧
    AuditReportBuilder.calculate_overall_status
      [("weekly_updates", ⟨"Fail", "No updates on Wed/Fri", false⟩)] [] =
      "NON-COMPLIANT" ∧
    (AuditReportBuilder.evaluate_ticket cfg0 wednesdayTicket).map
        (fun res => res.overall_status =
          AuditReportBuilder.calculate_overall_status res.criteria_results
            res.zero_tolerance_violations) =
      .ok True := by
  refine ⟨c2_overall_verdict.1 [] [("task_cancellation", "r")] (by decide), ?_, ?_⟩
  · exact (c2_overall_verdict.2.1
      [("weekly_updates", ⟨"Fail", "No updates on Wed/Fri", false⟩)]).1.mpr
      ⟨("weekly_updates", ⟨"Fail", "No updates on Wed/Fri", false⟩), by decide, rfl⟩
  · obtain ⟨res, hres⟩ :
        ∃ res, AuditReportBuilder.evaluate_ticket cfg0 wednesdayTicket = .ok res :=
      ⟨_, rfl⟩
    rw [hres]
    have h := c2_overall_verdict.2.2 cfg0 wednesdayTicket res rfl hres
    simp [Except.map, h]

/-! ## Claim C4 -/

/-- Claim C4: a ticket carrying the fetch_error sentinel makes _evaluate_ticket
return immediately with overall verdict ERROR, an empty criteria map and an
empty violation list; since the returned value is produced before any check is
consulted, no check can run (in particular no check exception can surface). -/
theorem c4_fetch_error_short_circuit (cfg : Config) (t : Ticket) (e : String)
    (h : t.fetch_error = some e) :
    AuditReportBuilder.evaluate_ticket cfg t = .ok ⟨t.key, "ERROR", [], []⟩ := by
  unfold AuditReportBuilder.evaluate_ticket
  rw [h]

/-- Claim C4, witness at the concrete fetch-error ticket. -/
theorem c4_witness :
    AuditReportBuilder.evaluate_ticket cfg0 fetchErrorTicket =
      .ok ⟨fetchErrorTicket.key, "ERROR", [], []⟩ :=
  c4_fetch_error_short_circuit cfg0 fetchErrorTicket "HTTP 500" rfl

/-! ## Claim C5 -/

/-- A string of the form Yes-dash never starts with No. -/
theorem yes_dash_not_startswith_no (r : String) :
    strStartsWith ("Yes - " ++ r) "No" = false := by
  cases r with
  | mk l => rfl

/-- A string of the form Yes-dash never equals Error. -/
theorem yes_dash_ne_error (r : String) : (("Yes - " ++ r) == "Error") = false := by
  cases r with
  | mk l => rfl

/-- When no entry triggers the legacy failure conditions the legacy overall
computation returns Pass. -/
theorem legacy_overall_pass_of_no_trigger (results : List (String × String))
    (h : ∀ e ∈ results, legacyEntryTriggersFail e = false) :
    ComplianceReportBuilder.calculate_overall_compliance results = "Pass" := by
  induction results with
  | nil => rfl
  | cons hd tl ih =>
    have hhd : legacyEntryTriggersFail hd = false := h hd (List.mem_cons_self hd tl)
    unfold legacyEntryTriggersFail at hhd
    simp only [Bool.or_eq_false_iff, Bool.and_eq_false_iff] at hhd
    unfold ComplianceReportBuilder.calculate_overall_compliance
    rw [hhd.1.1]
    simp only [Bool.false_eq_true, if_false]
    rcases hhd.1.2 with hz | hy
    · rw [if_neg (by simp [hz]), if_neg (by simp [hhd.2])]
      exact ih (fun e he => h e (List.mem_cons_of_mem hd he))
    · rw [if_neg (by simp [hy]), if_neg (by simp [hhd.2])]
      exact ih (fun e he => h e (List.mem_cons_of_mem hd he))

/-- Claim C5: the legacy mapping sends a cancellation Pass to the string No and
a cancellation Fail to Yes-dash-reason; the legacy overall computation returns
Fail as soon as any mapped entry starts with No; hence a passing cancellation
check alone forces the overall Fail, while a failing cancellation check entry
never triggers the overall Fail on its own. -/
theorem c5_legacy_polarity_inversion :
    (∀ (reason : String) (zt : Bool),
      ComplianceReportBuilder.map_result_to_legacy_format ⟨"Pass", reason, zt⟩
        "cancellation" = "No") ∧
    (∀ (reason : String) (zt : Bool),
      ComplianceReportBuilder.map_result_to_legacy_format ⟨"Fail", reason, zt⟩
        "cancellation" = "Yes - " ++ reason) ∧
    (∀ results : List (String × String),
      (∃ e ∈ results, strStartsWith e.2 "No" = true) →
        ComplianceReportBuilder.calculate_overall_compliance results = "Fail") ∧
    (∀ (reason : String) (zt : Bool) (rest : List (String × String)),
      (∀ e ∈ rest, legacyEntryTriggersFail e = false) →
        ComplianceReportBuilder.calculate_overall_compliance
          (("cancellation",
            ComplianceReportBuilder.map_result_to_legacy_format ⟨"Fail", reason, zt⟩
              "cancellation") :: rest) = "Pass") := by
  refine ⟨fun reason zt => rfl, fun reason zt => rfl, ?_, ?_⟩
  · intro results hex
    induction results with
    | nil => rcases hex with ⟨e, he, _⟩; cases he
    | cons hd tl ih =>
      unfold ComplianceReportBuilder.calculate_overall_compliance
      by_cases h1 : strStartsWith hd.2 "No"
      · rw [if_pos h1]
      · rw [if_neg (by simp [h1])]
        rcases hex with ⟨e, he, hno⟩
        rcases List.mem_cons.mp he with heq | hmem
        · rw [heq] at hno; exact absurd hno h1
        · by_cases h2 : hd.1 == "zero_tolerance" && hd.2 == "Yes"
          · rw [if_pos h2]
          · rw [if_neg h2]
            by_cases h3 : hd.2 == "Error"
            · rw [if_pos h3]
            · rw [if_neg h3]
              exact ih ⟨e, hmem, hno⟩
  · intro reason zt rest hrest
    have hmap : ComplianceReportBuilder.map_result_to_legacy_format ⟨"Fail", reason, zt⟩
        "cancellation" = "Yes - " ++ reason := rfl
    rw [hmap]
    refine legacy_overall_pass_of_no_trigger _ ?_
    intro e he
    rcases List.mem_cons.mp he with heq | hmem
    · rw [heq]
      unfold legacyEntryTriggersFail
      rw [yes_dash_not_startswith_no reason, yes_dash_ne_error reason]
      rfl
    · exact hrest e hmem

/-- Claim C5, witness: the four parts of the theorem applied at concrete
values. -/
theorem c5_witness :
    ComplianceReportBuilder.map_result_to_legacy_format
      ⟨"Pass", "No unauthorized cancellations", false⟩ "cancellation" = "No" ∧
    ComplianceReportBuilder.map_result_to_legacy_format
      ⟨"Fail", "Cancelled w/o approval: T-1", true⟩ "cancellation" =
      "Yes - " ++ "Cancelled w/o approval: T-1" ∧
    ComplianceReportBuilder.calculate_overall_compliance [("cancellation", "No")] =
      "Fail" ∧
    ComplianceReportBuilder.calculate_overall_compliance
      [("cancellation",
        ComplianceReportBuilder.map_result_to_legacy_format
          ⟨"Fail", "Cancelled w/o approval: T-1", true⟩ "cancellation")] = "Pass" := by
  refine ⟨c5_legacy_polarity_inversion.1 "No unauthorized cancellations" false,
    c5_legacy_polarity_inversion.2.1 "Cancelled w/o approval: T-1" true,
    c5_legacy_polarity_inversion.2.2.1 [("cancellation", "No")]
      ⟨("cancellation", "No"), by decide, by decide⟩,
    c5_legacy_polarity_inversion.2.2.2 "Cancelled w/o approval: T-1" true [] ?_⟩
  intro e he
  cases he

/-! ## Claim C6 -/

/-- Claim C6, counterexample. On an empty ticket set the Update Frequency check
does not return NotApplicable as the claim demands: it returns Fail. -/
theorem c6_counterexample :
    UpdateFrequencyCheck.evaluate [] = .ok ⟨"Fail", "No updates on Wed/Fri", false⟩ ∧
    "Fail" ≠ "NA" :=
  ⟨rfl, by decide⟩

/-- Claim C6, amended: on an empty ticket set only Status Hygiene answers NA;
MIT Planning, Non-MIT Tracking and Update Frequency answer Fail, while the
remaining automatable checks answer Pass, so the overall verdict computed from
these results is NON-COMPLIANT, not COMPLIANT. -/
theorem c6_empty_ticket_set_outcomes :
    StatusHygieneCheck.evaluate [] = .ok ⟨"NA", "No issues active", false⟩ ∧
    MITPlanningCheck.evaluate [] =
      .ok ⟨"Fail", "Only 0 MITs proposed (Min: 3)", false⟩ ∧
    NonMITTrackingCheck.evaluate [] =
      .ok ⟨"Fail", "Only 0 Non-MITs found (Min: 3)", false⟩ ∧
    UpdateFrequencyCheck.evaluate [] = .ok ⟨"Fail", "No updates on Wed/Fri", false⟩ ∧
    MITCreationCheck.evaluate [] = .ok ⟨"Pass", "All approved MITs exist", false⟩ ∧
    MITCompletionCheck.evaluate [] = .ok ⟨"Pass", "All MITs closed", false⟩ ∧
    CancellationCheck.evaluate [] = .ok ⟨"Pass", "No unauthorized cancellations", false⟩ ∧
    RoleOwnershipCheck.evaluate [] = .ok ⟨"Pass", "Roles correct", false⟩ ∧
    DocumentationCheck.evaluate [] = .ok ⟨"Pass", "Metadata complete", false⟩ ∧
    LifecycleCheck.evaluate [] = .ok ⟨"Pass", "SOP followed", false⟩ ∧
    AuditReportBuilder.calculate_overall_status
      [("mit_planning", ⟨"Fail", "Only 0 MITs proposed (Min: 3)", false⟩),
       ("mit_creation", ⟨"Pass", "All approved MITs exist", false⟩),
       ("mit_completion", ⟨"Pass", "All MITs closed", false⟩),
       ("non_mit_tracking", ⟨"Fail", "Only 0 Non-MITs found (Min: 3)", false⟩),
       ("status_hygiene", ⟨"NA", "No issues active", false⟩),
       ("task_cancellation", ⟨"Pass", "No unauthorized cancellations", false⟩),
       ("weekly_updates", ⟨"Fail", "No updates on Wed/Fri", false⟩),
       ("roles_and_access", ⟨"Pass", "Roles correct", false⟩),
       ("documentation_traceability", ⟨"Pass", "Metadata complete", false⟩),
       ("lifecycle_adherence", ⟨"Pass", "SOP followed", false⟩)] [] =
      "NON-COMPLIANT" :=
  ⟨rfl, rfl, rfl, rfl, rfl, rfl, rfl, rfl, rfl, rfl, rfl⟩

/-! ## Claim C7 -/

/-- The inner comment scan of the Update Frequency check computes the disjunction
of the incoming flags with the existence of a Wednesday (resp. Friday) comment. -/
theorem updateScanComments_spec (cs : List Comment) (w0 f0 w f : Bool)
    (h : updateScanComments cs (w0, f0) = .ok (w, f)) :
    w = (w0 || commentsHaveWeekday cs 2) ∧ f = (f0 || commentsHaveWeekday cs 4) := by
  induction cs generalizing w0 f0 with
  | nil =>
    unfold updateScanComments at h
    cases h
    simp [commentsHaveWeekday]
  | cons c cs ih =>
    unfold updateScanComments at h
    cases hwd : commentWeekday c with
    | error e =>
      rw [hwd] at h
      cases h
    | ok wd =>
      rw [hwd] at h
      simp only [Bind.bind, Except.bind] at h
      rcases ih _ _ h with ⟨hw, hf⟩
      constructor
      · rw [hw]
        simp [commentsHaveWeekday, hwd, Bool.or_assoc]
      · rw [hf]
        simp [commentsHaveWeekday, hwd, Bool.or_assoc]

/-- The outer issue scan of the Update Frequency check computes the disjunction
of the incoming flags with the existence of a Wednesday (resp. Friday) comment
on some ticket. -/
theorem updateScanIssues_spec (issues : List Ticket) (w0 f0 w f : Bool)
    (h : updateScanIssues issues (w0, f0) = .ok (w, f)) :
    w = (w0 || hasWeekdayComment issues 2) ∧ f = (f0 || hasWeekdayComment issues 4) := by
  induction issues generalizing w0 f0 with
  | nil =>
    unfold updateScanIssues at h
    cases h
    simp [hasWeekdayComment]
  | cons i is ih =>
    unfold updateScanIssues at h
    cases hcs : updateScanComments (commentsOf i) (w0, f0) with
    | error e =>
      rw [hcs] at h
      cases h
    | ok wf1 =>
      rw [hcs] at h
      simp only [Bind.bind, Except.bind] at h
      rcases ih _ _ h with ⟨hw, hf⟩
      rcases updateScanComments_spec _ _ _ _ _ hcs with ⟨hw1, hf1⟩
      constructor
      · rw [hw, hw1]
        simp [hasWeekdayComment, Bool.or_assoc]
      · rw [hf, hf1]
        simp [hasWeekdayComment, Bool.or_assoc]

/-- Claim C7, counterexample. A single ticket with one Wednesday comment (one of
the two cadence days satisfied) yields status Fail with reason Missed one update
day; there is no Partial outcome in the code. -/
theorem c7_counterexample :
    UpdateFrequencyCheck.evaluate [wednesdayTicket] =
      .ok ⟨"Fail", "Missed one update day", false⟩ ∧
    "Fail" ≠ "Partial" :=
  ⟨rfl, by decide⟩

/-- Claim C7, amended: whenever the Update Frequency check returns, it returns
Pass exactly when some comment (by any author) exists on a Wednesday and some
comment exists on a Friday; when exactly one of the two days is covered the
result is Fail with reason Missed one update day (not Partial); and when neither
day is covered the result is Fail with reason No updates on Wed/Fri. -/
theorem c7_update_frequency_characterization (issues : List Ticket) (r : CheckRes)
    (h : UpdateFrequencyCheck.evaluate issues = .ok r) :
    (r.status = "Pass" ↔
      (hasWeekdayComment issues 2 = true ∧ hasWeekdayComment issues 4 = true)) ∧
    (r = ⟨"Fail", "Missed one update day", false⟩ ↔
      hasWeekdayComment issues 2 ≠ hasWeekdayComment issues 4) ∧
    (r = ⟨"Fail", "No updates on Wed/Fri", false⟩ ↔
      (hasWeekdayComment issues 2 = false ∧ hasWeekdayComment issues 4 = false)) := by
  unfold UpdateFrequencyCheck.evaluate at h
  cases hscan : updateScanIssues issues (false, false) with
  | error e =>
    rw [hscan] at h
    cases h
  | ok wf =>
    rw [hscan] at h
    simp only [Bind.bind, Except.bind] at h
    rcases updateScanIssues_spec issues false false wf.1 wf.2 (by rw [hscan]) with ⟨hw, hf⟩
    simp only [Bool.false_or] at hw hf
    rw [← hw, ← hf]
    cases hwv : wf.1 <;> cases hfv : wf.2 <;>
      rw [hwv, hfv] at h <;> simp only [Bool.and_self, Bool.and_false, Bool.and_true,
        Bool.false_and, Bool.true_and, Bool.or_self, Bool.or_false, Bool.false_or,
        Bool.or_true, Bool.true_or, if_true, if_false, Bool.false_eq_true,
        Except.ok.injEq] at h <;> rw [← h] <;> refine ⟨?_, ?_, ?_⟩ <;>
      constructor <;> intro hc <;> first
        | rfl
        | (exact ⟨rfl, rfl⟩)
        | decide
        | (exact absurd hc (by decide))

/-- Claim C7, witness: the amended characterization applied to a concrete pair
of tickets with one Wednesday comment and one Friday comment. -/
theorem c7_witness :
    hasWeekdayComment [wednesdayTicket, fridayTicket] 2 = true ∧
    hasWeekdayComment [wednesdayTicket, fridayTicket] 4 = true :=
  (c7_update_frequency_characterization [wednesdayTicket, fridayTicket]
    ⟨"Pass", "Updates on Wed and Fri", false⟩ rfl).1.mp rfl

/-! ## Claim C8 -/

/-- Claim C8, counterexample. With one COMPLIANT and one ERROR subject the code
computes a 50 percent rate (the ERROR subject stays in the denominator), while
the rate the claim describes (ERROR excluded from the division) would be 100. -/
theorem c8_counterexample :
    (AuditReportBuilder.generate_executive_summary [compliantRes, errorRes]).compliance_rate
        = 50 ∧
    spec_compliance_rate_error_excluded [compliantRes, errorRes] = 100 ∧
    (50 : ℚ) ≠ 100 := by
  refine ⟨?_, ?_, by norm_num⟩
  · show (if (2 : Nat) > 0 then ((1 : Nat) : ℚ) / ((2 : Nat) : ℚ) * 100 else 0) = 50
    norm_num
  · show (if (1 : Nat) > 0 then ((1 : Nat) : ℚ) / ((1 : Nat) : ℚ) * 100 else 0) = 100
    norm_num

/-- Claim C8, amended: the executive summary counts every audit result in
total_audited, Error-verdict subjects included, and on a non-empty input the
compliance rate satisfies rate times total equals compliant times 100 — that is,
the divisor of the percentage is the full audited count with Error subjects
still inside it, not the Error-excluded count. -/
theorem c8_compliance_rate_denominator (audit_results : List AuditRes)
    (h : audit_results ≠ []) :
    (AuditReportBuilder.generate_executive_summary audit_results).total_audited =
      audit_results.length ∧
    (AuditReportBuilder.generate_executive_summary audit_results).compliance_rate *
        (audit_results.length : ℚ) =
      ((AuditReportBuilder.generate_executive_summary audit_results).compliant_count : ℚ)
        * 100 := by
  constructor
  · rfl
  · have hlen : 0 < audit_results.length := List.length_pos.mpr h
    have hne : (audit_results.length : ℚ) ≠ 0 := by
      exact_mod_cast Nat.pos_iff_ne_zero.mp hlen
    show (if audit_results.length > 0
        then (((audit_results.filter
          (fun r => r.overall_status == "COMPLIANT")).length : ℚ) /
            (audit_results.length : ℚ) * 100)
        else 0) * (audit_results.length : ℚ) =
      (((audit_results.filter (fun r => r.overall_status == "COMPLIANT")).length : ℚ))
        * 100
    rw [if_pos hlen]
    field_simp

/-- Claim C8, witness: the amended theorem applied to the concrete two-subject
list containing an ERROR verdict. -/
theorem c8_witness :
    (AuditReportBuilder.generate_executive_summary [compliantRes, errorRes]).total_audited
        = ([compliantRes, errorRes] : List AuditRes).length ∧
    (AuditReportBuilder.generate_executive_summary
        [compliantRes, errorRes]).compliance_rate *
        ((([compliantRes, errorRes] : List AuditRes).length : Nat) : ℚ) =
      ((AuditReportBuilder.generate_executive_summary
          [compliantRes, errorRes]).compliant_count : ℚ) * 100 :=
  c8_compliance_rate_denominator [compliantRes, errorRes] (by decide)

/-! ## Claim C10 -/

/-- The substring tester agrees with the existence of a decomposition of the
haystack around the needle. -/
theorem subOf_iff (n : List Char) : ∀ h : List Char,
    subOf n h = true ↔ ∃ l r, l ++ n ++ r = h := by
  intro h
  induction h with
  | nil =>
    unfold subOf
    constructor
    · intro he
      refine ⟨[], [], ?_⟩
      have : n = [] := by simpa [List.isEmpty_iff] using he
      simp [this]
    · intro ⟨l, r, hlr⟩
      rcases List.append_eq_nil.mp (List.append_eq_nil.mp hlr).1 with ⟨_, hn⟩
      simp [List.isEmpty_iff, hn]
  | cons hd tl ih =>
    unfold subOf
    constructor
    · intro he
      rcases Bool.or_eq_true_iff.mp he with hp | hs
      · rcases List.isPrefixOf_iff_prefix.mp hp with ⟨r, hr⟩
        exact ⟨[], r, by simpa using hr⟩
      · rcases ih.mp hs with ⟨l, r, hlr⟩
        exact ⟨hd :: l, r, by simp [hlr]⟩
    · intro ⟨l, r, hlr⟩
      cases l with
      | nil =>
        apply Bool.or_eq_true_iff.mpr
        left
        exact List.isPrefixOf_iff_prefix.mpr ⟨r, by simpa using hlr⟩
      | cons a l2 =>
        apply Bool.or_eq_true_iff.mpr
        right
        apply ih.mpr
        refine ⟨l2, r, ?_⟩
        have := (List.cons_eq_cons.mp (by simpa using hlr)).2
        simpa using this

/-- Claim C10, counterexample. Under the naming-pattern strategy with configured
token mit (lower case) and summary mit work, the token occurs in the summary
under case-insensitive comparison (uppercasing both sides finds it), yet the
classifier answers NonMIT: the code uppercases only the summary and matches the
configured token verbatim, so it is not case-insensitive in the token. -/
theorem c10_counterexample :
    AuditReportBuilder.is_mit_ticket cfgLowerToken lowerMitTicket = false ∧
    strIn (strUpper "mit") (strUpper "mit work") = true := by
  exact ⟨rfl, rfl⟩

/-- Claim C10, amended: the classifier is a total Boolean function; under the
naming-pattern strategy it answers MIT exactly when the configured token occurs
verbatim as a substring of the uppercased summary (case-insensitive in the
summary only, not in the token); and under an unrecognized strategy it answers
NonMIT. -/
theorem c10_mit_classifier (cfg : Config) (t : Ticket) :
    (cfg.settings.mit_identification.method = "naming_pattern" →
      (AuditReportBuilder.is_mit_ticket cfg t = true ↔
        ∃ l r, l ++ cfg.settings.mit_identification.naming_pattern.data ++ r =
          (strUpper (t.fields.summary.getD "")).data)) ∧
    (cfg.settings.mit_identification.method ≠ "label" →
     cfg.settings.mit_identification.method ≠ "custom_field" →
     cfg.settings.mit_identification.method ≠ "issue_type" →
     cfg.settings.mit_identification.method ≠ "naming_pattern" →
      AuditReportBuilder.is_mit_ticket cfg t = false) := by
  constructor
  · intro hm
    have hval : AuditReportBuilder.is_mit_ticket cfg t =
        strIn cfg.settings.mit_identification.naming_pattern
          (strUpper (t.fields.summary.getD "")) := by
      simp [AuditReportBuilder.is_mit_ticket, hm]
    rw [hval]
    exact subOf_iff _ _
  · intro h1 h2 h3 h4
    have e1 : (cfg.settings.mit_identification.method == "label") = false := by simp [h1]
    have e2 : (cfg.settings.mit_identification.method == "custom_field") = false := by
      simp [h2]
    have e3 : (cfg.settings.mit_identification.method == "issue_type") = false := by
      simp [h3]
    have e4 : (cfg.settings.mit_identification.method == "naming_pattern") = false := by
      simp [h4]
    simp [AuditReportBuilder.is_mit_ticket, e1, e2, e3, e4]

/-- Claim C10, witness: with the upper-case token MIT the classifier accepts a
summary containing MIT, exhibiting the decomposition; and an unrecognized
strategy classifies the same ticket as NonMIT. -/
theorem c10_witness :
    (∃ l r, l ++ ("MIT".data) ++ r = (strUpper ("do MIT now")).data) ∧
    AuditReportBuilder.is_mit_ticket cfgBogusMethod upperMitTicket = false := by
  constructor
  · exact ((c10_mit_classifier cfgUpperToken upperMitTicket).1 rfl).mp rfl
  · exact (c10_mit_classifier cfgBogusMethod upperMitTicket).2
      (by decide) (by decide) (by decide) (by decide)

/-! ## Claim C3 -/

/-- Both branches of a conditional return ok, so the conditional does. -/
theorem exists_ok_of_ite {α : Type} {c : Prop} [Decidable c]
    (a b : Except String α) (ha : ∃ r, a = .ok r) (hb : ∃ r, b = .ok r) :
    ∃ r, (if c then a else b) = .ok r := by
  by_cases h : c
  · simpa [h] using ha
  · simpa [h] using hb

/-- MITPlanningCheck never raises. -/
theorem MITPlanning_total (issues : List Ticket) :
    ∃ r, MITPlanningCheck.evaluate issues = .ok r := by
  simp only [MITPlanningCheck.evaluate]
  exact exists_ok_of_ite _ _ ⟨_, rfl⟩ (exists_ok_of_ite _ _ ⟨_, rfl⟩ ⟨_, rfl⟩)

/-- The open-MIT scan succeeds on a single ticket whose status key is present. -/
theorem mitOpenScan_single_total (t : Ticket) (h : t.fields.status.isSome = true) :
    ∃ l, mitOpenScan [t] = .ok l := by
  obtain ⟨sf, hsf⟩ := Option.isSome_iff_exists.mp h
  simp only [mitOpenScan, getStatusName, hsf, Bind.bind, Except.bind]
  exact exists_ok_of_ite _ _ ⟨_, rfl⟩ ⟨_, rfl⟩

/-- MITCompletionCheck never raises on a ticket whose status key is present. -/
theorem MITCompletion_total (t : Ticket) (h : t.fields.status.isSome = true) :
    ∃ r, MITCompletionCheck.evaluate [t] = .ok r := by
  obtain ⟨l, hl⟩ := mitOpenScan_single_total t h
  simp only [MITCompletionCheck.evaluate, hl, Bind.bind, Except.bind]
  exact exists_ok_of_ite _ _ ⟨_, rfl⟩ ⟨_, rfl⟩

/-- NonMITTrackingCheck never raises. -/
theorem NonMIT_total (issues : List Ticket) :
    ∃ r, NonMITTrackingCheck.evaluate issues = .ok r := by
  simp only [NonMITTrackingCheck.evaluate]
  exact exists_ok_of_ite _ _ ⟨_, rfl⟩ ⟨_, rfl⟩

/-- RecapToJiraConversionCheck never raises. -/
theorem Recap_total (issues : List Ticket) :
    ∃ r, RecapToJiraConversionCheck.evaluate issues = .ok r := by
  simp only [RecapToJiraConversionCheck.evaluate]
  exact exists_ok_of_ite _ _ ⟨_, rfl⟩ ⟨_, rfl⟩

/-- StatusHygieneCheck never raises. -/
theorem StatusHygiene_total (issues : List Ticket) :
    ∃ r, StatusHygieneCheck.evaluate issues = .ok r := by
  simp only [StatusHygieneCheck.evaluate]
  exact exists_ok_of_ite _ _ ⟨_, rfl⟩ (exists_ok_of_ite _ _ ⟨_, rfl⟩ ⟨_, rfl⟩)

/-- The cancellation scan succeeds on a single ticket whose status key is
present. -/
theorem cancellationScan_single_total (t : Ticket)
    (h : t.fields.status.isSome = true) : ∃ l, cancellationScan [t] = .ok l := by
  obtain ⟨sf, hsf⟩ := Option.isSome_iff_exists.mp h
  simp only [cancellationScan, getStatusName, hsf, Bind.bind, Except.bind]
  exact exists_ok_of_ite _ _ (exists_ok_of_ite _ _ ⟨_, rfl⟩ ⟨_, rfl⟩) ⟨_, rfl⟩

/-- CancellationCheck never raises on a ticket whose status key is present. -/
theorem Cancellation_total (t : Ticket) (h : t.fields.status.isSome = true) :
    ∃ r, CancellationCheck.evaluate [t] = .ok r := by
  obtain ⟨l, hl⟩ := cancellationScan_single_total t h
  simp only [CancellationCheck.evaluate, hl, Bind.bind, Except.bind]
  exact exists_ok_of_ite _ _ ⟨_, rfl⟩ ⟨_, rfl⟩

/-- The comment scan of the Update Frequency check succeeds when every comment
is well formed. -/
theorem updateScanComments_total (cs : List Comment)
    (h : cs.all wellFormedComment = true) :
    ∀ wf, ∃ x, updateScanComments cs wf = .ok x := by
  induction cs with
  | nil => intro wf; exact ⟨wf, rfl⟩
  | cons c cs ih =>
    intro wf
    rcases List.all_eq_true.mp h c (List.mem_cons_self c cs) with hc
    have hrest : cs.all wellFormedComment = true :=
      List.all_eq_true.mpr (fun x hx => List.all_eq_true.mp h x (List.mem_cons_of_mem c hx))
    unfold wellFormedComment at hc
    cases hcr : c.created with
    | none => rw [hcr] at hc; cases hc
    | some s =>
      rw [hcr] at hc
      obtain ⟨ymd, hymd⟩ := Option.isSome_iff_exists.mp hc
      obtain ⟨w, f⟩ := wf
      simp only [updateScanComments, commentWeekday, hcr, hymd, Bind.bind, Except.bind]
      exact ih hrest _

/-- UpdateFrequencyCheck never raises on a ticket whose comments are all well
formed. -/
theorem UpdateFrequency_total (t : Ticket)
    (h : (commentsOf t).all wellFormedComment = true) :
    ∃ r, UpdateFrequencyCheck.evaluate [t] = .ok r := by
  obtain ⟨x, hx⟩ := updateScanComments_total (commentsOf t) h (false, false)
  have hscan : updateScanIssues [t] (false, false) = .ok x := by
    simp only [updateScanIssues, hx, Bind.bind, Except.bind]
  simp only [UpdateFrequencyCheck.evaluate, hscan, Bind.bind, Except.bind]
  exact exists_ok_of_ite _ _ ⟨_, rfl⟩ (exists_ok_of_ite _ _ ⟨_, rfl⟩ ⟨_, rfl⟩)

/-- RoleOwnershipCheck never raises. -/
theorem RoleOwnership_total (issues : List Ticket) :
    ∃ r, RoleOwnershipCheck.evaluate issues = .ok r := by
  simp only [RoleOwnershipCheck.evaluate]
  exact exists_ok_of_ite _ _ ⟨_, rfl⟩ ⟨_, rfl⟩

/-- DocumentationCheck never raises. -/
theorem Documentation_total (issues : List Ticket) :
    ∃ r, DocumentationCheck.evaluate issues = .ok r := by
  simp only [DocumentationCheck.evaluate]
  exact exists_ok_of_ite _ _ ⟨_, rfl⟩ ⟨_, rfl⟩

/-- The lifecycle scan succeeds on a single ticket whose status key is present. -/
theorem lifecycleScan_single_total (t : Ticket) (h : t.fields.status.isSome = true) :
    ∃ l, lifecycleScan [t] = .ok l := by
  obtain ⟨sf, hsf⟩ := Option.isSome_iff_exists.mp h
  simp only [lifecycleScan, getStatusName, hsf, Bind.bind, Except.bind]
  exact exists_ok_of_ite _ _ ⟨_, rfl⟩ ⟨_, rfl⟩

/-- LifecycleCheck never raises on a ticket whose status key is present. -/
theorem Lifecycle_total (t : Ticket) (h : t.fields.status.isSome = true) :
    ∃ r, LifecycleCheck.evaluate [t] = .ok r := by
  obtain ⟨l, hl⟩ := lifecycleScan_single_total t h
  simp only [LifecycleCheck.evaluate, hl, Bind.bind, Except.bind]
  exact exists_ok_of_ite _ _ ⟨_, rfl⟩ ⟨_, rfl⟩

/-- CommentQualityCheck never raises. -/
theorem CommentQuality_total (cfg : Config) (issues : List Ticket) :
    ∃ r, CommentQualityCheck.evaluate cfg issues = .ok r := by
  simp only [CommentQualityCheck.evaluate]
  exact exists_ok_of_ite _ _ ⟨_, rfl⟩ ⟨_, rfl⟩

/-- MissingCommentsCheck never raises. -/
theorem MissingComments_total (issues : List Ticket) :
    ∃ r, MissingCommentsCheck.evaluate issues = .ok r := by
  simp only [MissingCommentsCheck.evaluate]
  exact exists_ok_of_ite _ _ ⟨_, rfl⟩ ⟨_, rfl⟩

/-- The screenshot generator succeeds when every attachment has a filename. -/
theorem anyScreenshot_total (atts : List Attachment)
    (h : atts.all (fun a => a.filename.isSome) = true) :
    ∃ b, anyScreenshot atts = .ok b := by
  induction atts with
  | nil => exact ⟨false, rfl⟩
  | cons a as ih =>
    have ha := List.all_eq_true.mp h a (List.mem_cons_self a as)
    have hrest : as.all (fun a => a.filename.isSome) = true :=
      List.all_eq_true.mpr (fun x hx => List.all_eq_true.mp h x (List.mem_cons_of_mem a hx))
    obtain ⟨fn, hfn⟩ := Option.isSome_iff_exists.mp ha
    simp only [anyScreenshot, hfn]
    exact exists_ok_of_ite _ _ ⟨_, rfl⟩ (ih hrest)

/-- ScreenshotOnlyEvidenceCheck never raises on a ticket whose attachments all
have filenames. -/
theorem Screenshot_total (t : Ticket)
    (h : t.fields.attachment.all (fun a => a.filename.isSome) = true) :
    ∃ r, ScreenshotOnlyEvidenceCheck.evaluate [t] = .ok r := by
  obtain ⟨b, hb⟩ := anyScreenshot_total t.fields.attachment h
  have hscan : ∃ l, screenshotScan [t] = .ok l := by
    simp only [screenshotScan, hb, Bind.bind, Except.bind]
    exact exists_ok_of_ite _ _ ⟨_, rfl⟩ ⟨_, rfl⟩
  obtain ⟨l, hl⟩ := hscan
  simp only [ScreenshotOnlyEvidenceCheck.evaluate, hl, Bind.bind, Except.bind]
  exact exists_ok_of_ite _ _ ⟨_, rfl⟩ ⟨_, rfl⟩

/-- DescriptionQualityCheck never raises. -/
theorem DescriptionQuality_total (cfg : Config) (issues : List Ticket) :
    ∃ r, DescriptionQualityCheck.evaluate cfg issues = .ok r := by
  simp only [DescriptionQualityCheck.evaluate]
  exact exists_ok_of_ite _ _ ⟨_, rfl⟩ ⟨_, rfl⟩

/-- The title scan succeeds on a single ticket whose summary key is present. -/
theorem titleScan_single_total (bad_words : List String) (t : Ticket)
    (h : t.fields.summary.isSome = true) :
    ∃ l, titleScan bad_words [t] = .ok l := by
  obtain ⟨s, hs⟩ := Option.isSome_iff_exists.mp h
  simp only [titleScan, hs, Bind.bind, Except.bind]
  exact exists_ok_of_ite _ _ ⟨_, rfl⟩ ⟨_, rfl⟩

/-- TitleQualityCheck never raises on a ticket whose summary key is present. -/
theorem TitleQuality_total (cfg : Config) (t : Ticket)
    (h : t.fields.summary.isSome = true) :
    ∃ r, TitleQualityCheck.evaluate cfg [t] = .ok r := by
  obtain ⟨l, hl⟩ := titleScan_single_total cfg.title_quality_avoid_generic t h
  simp only [TitleQualityCheck.evaluate, hl, Bind.bind, Except.bind]
  exact exists_ok_of_ite _ _ ⟨_, rfl⟩ ⟨_, rfl⟩

/-- The core-check loop succeeds whenever every listed check succeeds on the
ticket. -/
theorem runCoreChecks_total (cfg : Config) (t : Ticket) (m : Bool) :
    ∀ (L : List (String × (List Ticket → Except String CheckRes)))
      (st : List (String × CheckRes) × List (String × String) × Bool),
      (∀ p ∈ L, ∃ r, p.2 [t] = .ok r) →
      ∃ st2, runCoreChecks cfg t m L st = .ok st2 := by
  intro L
  induction L with
  | nil => intro st _; exact ⟨st, rfl⟩
  | cons p rest ih =>
    intro st h
    obtain ⟨id, chk⟩ := p
    obtain ⟨results, viols, stop⟩ := st
    unfold runCoreChecks
    by_cases h1 : (isMitOnlyCheck id && !m) = true
    · rw [if_pos h1]
      exact ih _ (fun q hq => h q (List.mem_cons_of_mem _ hq))
    · rw [if_neg h1]
      by_cases h2 : (id == "non_mit_tracking" && m) = true
      · rw [if_pos h2]
        exact ih _ (fun q hq => h q (List.mem_cons_of_mem _ hq))
      · rw [if_neg h2]
        by_cases h3 : stop = true
        · rw [if_pos h3]
          exact ih _ (fun q hq => h q (List.mem_cons_of_mem _ hq))
        · rw [if_neg h3]
          obtain ⟨r, hr⟩ := h (id, chk) (List.mem_cons_self _ _)
          have hr2 : chk [t] = .ok r := hr
          rw [hr2]
          simp only [Bind.bind, Except.bind]
          by_cases h4 : (r.zero_tolerance && r.status == "Fail") = true
          · rw [if_pos h4]
            exact ih _ (fun q hq => h q (List.mem_cons_of_mem _ hq))
          · rw [if_neg h4]
            exact ih _ (fun q hq => h q (List.mem_cons_of_mem _ hq))

/-- The manual-check loop succeeds whenever every listed check succeeds on the
ticket. -/
theorem runManualChecks_total (cfg : Config) (t : Ticket) :
    ∀ (L : List (String × (List Ticket → Except String CheckRes)))
      (st : List (String × CheckRes) × List (String × String)),
      (∀ p ∈ L, ∃ r, p.2 [t] = .ok r) →
      ∃ st2, runManualChecks cfg t L st = .ok st2 := by
  intro L
  induction L with
  | nil => intro st _; exact ⟨st, rfl⟩
  | cons p rest ih =>
    intro st h
    obtain ⟨id, chk⟩ := p
    obtain ⟨results, viols⟩ := st
    unfold runManualChecks
    obtain ⟨r, hr⟩ := h (id, chk) (List.mem_cons_self _ _)
    have hr2 : chk [t] = .ok r := hr
    rw [hr2]
    simp only [Bind.bind, Except.bind]
    by_cases h4 : (r.zero_tolerance && r.status == "Fail") = true
    · rw [if_pos h4]
      exact ih _ (fun q hq => h q (List.mem_cons_of_mem _ hq))
    · rw [if_neg h4]
      exact ih _ (fun q hq => h q (List.mem_cons_of_mem _ hq))

/-- On a well-formed ticket every core check returns a result. -/
theorem core_checks_ok (cfg : Config) (t : Ticket) (hwf : wellFormedTicket t = true) :
    ∀ p ∈ core_checks cfg, ∃ r, p.2 [t] = .ok r := by
  have hparts := hwf
  simp only [wellFormedTicket, Bool.and_eq_true] at hparts
  obtain ⟨⟨⟨hst, _hsum⟩, hcom⟩, _hatt⟩ := hparts
  intro p hp
  simp only [core_checks, List.mem_cons, List.not_mem_nil, or_false] at hp
  rcases hp with rfl | rfl | rfl | rfl | rfl | rfl | rfl | rfl | rfl | rfl | rfl
  · exact MITPlanning_total [t]
  · exact ⟨_, rfl⟩
  · exact MITCompletion_total t hst
  · exact NonMIT_total [t]
  · exact Recap_total [t]
  · exact StatusHygiene_total [t]
  · exact Cancellation_total t hst
  · exact UpdateFrequency_total t hcom
  · exact RoleOwnership_total [t]
  · exact Documentation_total [t]
  · exact Lifecycle_total t hst

/-- On a well-formed ticket every manual check returns a result. -/
theorem manual_checks_ok (cfg : Config) (t : Ticket) (hwf : wellFormedTicket t = true) :
    ∀ p ∈ manual_checks cfg, ∃ r, p.2 [t] = .ok r := by
  have hparts := hwf
  simp only [wellFormedTicket, Bool.and_eq_true] at hparts
  obtain ⟨⟨⟨_hst, hsum⟩, _hcom⟩, hatt⟩ := hparts
  intro p hp
  simp only [manual_checks, List.mem_cons, List.not_mem_nil, or_false] at hp
  rcases hp with rfl | rfl | rfl | rfl | rfl | rfl | rfl | rfl | rfl | rfl | rfl
  · exact CommentQuality_total cfg [t]
  · exact MissingComments_total [t]
  · exact Screenshot_total t hatt
  · exact ⟨_, rfl⟩
  · exact DescriptionQuality_total cfg [t]
  · exact TitleQuality_total cfg t hsum
  · exact ⟨_, rfl⟩
  · exact ⟨_, rfl⟩
  · exact ⟨_, rfl⟩
  · exact ⟨_, rfl⟩
  · exact ⟨_, rfl⟩

/-- Claim C3, counterexample. A ticket without the fetch-error sentinel whose
single comment lacks the created key makes _evaluate_ticket raise (the Update
Frequency check subscripts None), so rule evaluation does throw: the checks are
not total over their input, contrary to the claim. -/
theorem c3_counterexample :
    AuditReportBuilder.evaluate_ticket cfg0 undatedCommentTicket =
      .error "TypeError: NoneType is not subscriptable" ∧
    undatedCommentTicket.fetch_error = none :=
  ⟨rfl, rfl⟩

/-- Claim C3, amended: rule evaluation is total only over well-formed raw data.
When a ticket carries status and summary keys, dated comments and named
attachments, every check returns and _evaluate_ticket returns a result instead
of raising; on malformed data (for example a comment lacking its created
timestamp) evaluation raises, and the fetch-error sentinel still short-circuits
to an Error verdict before any check runs. -/
theorem c3_orchestrator_total_on_well_formed (cfg : Config) (t : Ticket)
    (hwf : wellFormedTicket t = true) :
    ∃ res, AuditReportBuilder.evaluate_ticket cfg t = .ok res := by
  cases hfe : t.fetch_error with
  | some e =>
    exact ⟨⟨t.key, "ERROR", [], []⟩, by
      unfold AuditReportBuilder.evaluate_ticket
      rw [hfe]⟩
  | none =>
    unfold AuditReportBuilder.evaluate_ticket
    rw [hfe]
    obtain ⟨core, hcore⟩ := runCoreChecks_total cfg t
      (AuditReportBuilder.is_mit_ticket cfg t) (core_checks cfg) ([], [], false)
      (core_checks_ok cfg t hwf)
    simp only [Bind.bind, Except.bind, hcore]
    by_cases hs : core.2.2 = true
    · rw [if_pos hs]
      exact ⟨_, rfl⟩
    · rw [if_neg hs]
      obtain ⟨fin, hman⟩ := runManualChecks_total cfg t (manual_checks cfg)
        (core.1, core.2.1) (manual_checks_ok cfg t hwf)
      rw [hman]
      exact ⟨_, rfl⟩

/-- Claim C3, witness: the amended theorem applied to the concrete well-formed
ticket. -/
theorem c3_witness :
    ∃ res, AuditReportBuilder.evaluate_ticket cfg0 wellFormedFixtureTicket = .ok res :=
  c3_orchestrator_total_on_well_formed cfg0 wellFormedFixtureTicket (by decide)

/-! ## Claim C9 -/

/-- Membership through stable insertion. -/
theorem mem_insertByCount {z x : String × Nat × List FailEx} :
    ∀ {l : List (String × Nat × List FailEx)},
      z ∈ insertByCount x l → z = x ∨ z ∈ l := by
  intro l
  induction l with
  | nil =>
    intro h
    rcases List.mem_singleton.mp h with rfl
    exact Or.inl rfl
  | cons y ys ih =>
    intro h
    unfold insertByCount at h
    by_cases hc : y.2.1 ≥ x.2.1
    · rw [if_pos hc] at h
      rcases List.mem_cons.mp h with rfl | h2
      · exact Or.inr (List.mem_cons_self _ _)
      · rcases ih h2 with h3 | h3
        · exact Or.inl h3
        · exact Or.inr (List.mem_cons_of_mem _ h3)
    · rw [if_neg hc] at h
      rcases List.mem_cons.mp h with rfl | h2
      · exact Or.inl rfl
      · exact Or.inr h2

/-- Stable insertion preserves the count-descending invariant. -/
theorem insertByCount_sorted (x : String × Nat × List FailEx) :
    ∀ {l : List (String × Nat × List FailEx)},
      List.Pairwise (fun a b => b.2.1 ≤ a.2.1) l →
      List.Pairwise (fun a b => b.2.1 ≤ a.2.1) (insertByCount x l) := by
  intro l
  induction l with
  | nil => intro _; exact List.pairwise_singleton _ _
  | cons y ys ih =>
    intro h
    rcases List.pairwise_cons.mp h with ⟨hy, hys⟩
    unfold insertByCount
    by_cases hc : y.2.1 ≥ x.2.1
    · rw [if_pos hc]
      refine List.pairwise_cons.mpr ⟨?_, ih hys⟩
      intro z hz
      rcases mem_insertByCount hz with rfl | h2
      · exact hc
      · exact hy z h2
    · rw [if_neg hc]
      refine List.pairwise_cons.mpr ⟨?_, h⟩
      intro z hz
      rcases List.mem_cons.mp hz with rfl | h2
      · exact Nat.le_of_not_le hc
      · exact Nat.le_trans (hy z h2) (Nat.le_of_not_le hc)

/-- The stable sort preserves the count-descending invariant of its
accumulator. -/
theorem sortFailuresDesc_sorted :
    ∀ (l acc : List (String × Nat × List FailEx)),
      List.Pairwise (fun a b => b.2.1 ≤ a.2.1) acc →
      List.Pairwise (fun a b => b.2.1 ≤ a.2.1) (sortFailuresDesc l acc) := by
  intro l
  induction l with
  | nil => intro acc h; exact h
  | cons x xs ih =>
    intro acc h
    exact ih _ (insertByCount_sorted x h)

/-- Membership through the stable sort. -/
theorem mem_sortFailuresDesc {z : String × Nat × List FailEx} :
    ∀ {l acc : List (String × Nat × List FailEx)},
      z ∈ sortFailuresDesc l acc → z ∈ l ∨ z ∈ acc := by
  intro l
  induction l with
  | nil => intro acc h; exact Or.inr h
  | cons x xs ih =>
    intro acc h
    rcases ih h with h2 | h2
    · exact Or.inl (List.mem_cons_of_mem _ h2)
    · rcases mem_insertByCount h2 with rfl | h3
      · exact Or.inl (List.mem_cons_self _ _)
      · exact Or.inr h3

/-- Inserting an entry with a different count leaves a count filter unchanged. -/
theorem filter_insertByCount_ne (x : String × Nat × List FailEx) (n : Nat)
    (hx : x.2.1 ≠ n) :
    ∀ l : List (String × Nat × List FailEx),
      (insertByCount x l).filter (fun e => e.2.1 == n) =
        l.filter (fun e => e.2.1 == n) := by
  intro l
  induction l with
  | nil => simp [insertByCount, hx]
  | cons y ys ih =>
    unfold insertByCount
    by_cases hc : y.2.1 ≥ x.2.1
    · rw [if_pos hc]
      simp only [List.filter_cons]
      rw [ih]
    · rw [if_neg hc]
      have hxf : (x.2.1 == n) = false := by simpa using hx
      simp only [List.filter_cons, hxf]
      simp

/-- Inserting an entry bearing the filtered count into a count-descending list
appends it after the existing entries with that count. -/
theorem filter_insertByCount_eq (x : String × Nat × List FailEx) (n : Nat)
    (hx : x.2.1 = n) :
    ∀ l : List (String × Nat × List FailEx),
      List.Pairwise (fun a b => b.2.1 ≤ a.2.1) l →
      (insertByCount x l).filter (fun e => e.2.1 == n) =
        l.filter (fun e => e.2.1 == n) ++ [x] := by
  intro l
  induction l with
  | nil => intro _; simp [insertByCount, hx]
  | cons y ys ih =>
    intro hs
    rcases List.pairwise_cons.mp hs with ⟨hy, hys⟩
    unfold insertByCount
    by_cases hc : y.2.1 ≥ x.2.1
    · rw [if_pos hc]
      simp only [List.filter_cons]
      rw [ih hys]
      by_cases hyn : (y.2.1 == n) = true <;> simp [hyn]
    · rw [if_neg hc]
      have hyn : (y.2.1 == n) = false := by
        simp only [beq_eq_false_iff_ne, ne_eq]
        intro hcon
        rw [← hx] at hcon
        exact hc (Nat.le_of_eq hcon.symm)
      have hnil : ys.filter (fun e => e.2.1 == n) = [] := by
        apply List.filter_eq_nil_iff.mpr
        intro z hz
        have hzy : z.2.1 ≤ y.2.1 := hy z hz
        have hyx : y.2.1 < x.2.1 := Nat.lt_of_not_le hc
        have hzn : z.2.1 ≠ n := by
          rw [← hx]
          exact Nat.ne_of_lt (Nat.lt_of_le_of_lt hzy hyx)
        simpa using hzn
      have hxt : (x.2.1 == n) = true := by simpa using hx
      simp [List.filter_cons, hxt, hyn, hnil]

/-- Filtering a count across the stable sort: the sorted output lists the
entries of that count in exactly their accumulator-then-input order. -/
theorem sortFailuresDesc_filter (n : Nat) :
    ∀ (l acc : List (String × Nat × List FailEx)),
      List.Pairwise (fun a b => b.2.1 ≤ a.2.1) acc →
      (sortFailuresDesc l acc).filter (fun e => e.2.1 == n) =
        acc.filter (fun e => e.2.1 == n) ++ l.filter (fun e => e.2.1 == n) := by
  intro l
  induction l with
  | nil => intro acc _; simp [sortFailuresDesc]
  | cons x xs ih =>
    intro acc hs
    unfold sortFailuresDesc
    rw [ih _ (insertByCount_sorted x hs)]
    by_cases hx : x.2.1 = n
    · rw [filter_insertByCount_eq x n hx acc hs,
        List.filter_cons_of_pos (by simpa using hx)]
      simp
    · rw [filter_insertByCount_ne x n hx acc,
        List.filter_cons_of_neg (by simpa using hx)]

/-- Recording one failure preserves any per-example property of the accumulator
provided the new example satisfies it at its criterion. -/
theorem addFailure_good (P : String → FailEx → Prop) (crit : String) (ex0 : FailEx)
    (hex : P crit ex0) :
    ∀ acc : List (String × Nat × List FailEx),
      (∀ e ∈ acc, ∀ ex ∈ e.2.2, P e.1 ex) →
      ∀ e ∈ addFailure acc crit ex0, ∀ ex ∈ e.2.2, P e.1 ex := by
  intro acc
  induction acc with
  | nil =>
    intro _ e he ex hx
    rcases List.mem_singleton.mp he with rfl
    rcases List.mem_singleton.mp hx with rfl
    exact hex
  | cons y ys ih =>
    intro hacc e he ex hx
    unfold addFailure at he
    by_cases hc : (y.1 == crit) = true
    · rw [if_pos hc] at he
      rcases List.mem_cons.mp he with rfl | h2
      · rcases List.mem_append.mp hx with h3 | h3
        · exact hacc y (List.mem_cons_self _ _) ex h3
        · rcases List.mem_singleton.mp h3 with rfl
          have : y.1 = crit := by simpa using hc
          rw [this]
          exact hex
      · exact hacc e (List.mem_cons_of_mem _ h2) ex hx
    · rw [if_neg hc] at he
      rcases List.mem_cons.mp he with rfl | h2
      · exact hacc y (List.mem_cons_self _ _) ex hx
      · exact ih (fun q hq => hacc q (List.mem_cons_of_mem _ hq)) e h2 ex hx

/-- The criteria loop of the recommendation collector preserves the per-example
property. -/
theorem collectFromCriteria_good (P : String → FailEx → Prop) (key : String) :
    ∀ (crits : List (String × CheckRes)) (acc : List (String × Nat × List FailEx)),
      (∀ e ∈ acc, ∀ ex ∈ e.2.2, P e.1 ex) →
      (∀ q ∈ crits, q.2.status = "Fail" → P q.1 ⟨key, q.2.reason⟩) →
      ∀ e ∈ collectFromCriteria key crits acc, ∀ ex ∈ e.2.2, P e.1 ex := by
  intro crits
  induction crits with
  | nil => intro acc hacc _; exact hacc
  | cons q qs ih =>
    intro acc hacc hq
    unfold collectFromCriteria
    by_cases hf : (q.2.status == "Fail") = true
    · rw [if_pos hf]
      exact ih _
        (addFailure_good P q.1 ⟨key, q.2.reason⟩
          (hq q (List.mem_cons_self _ _) (by simpa using hf)) acc hacc)
        (fun z hz => hq z (List.mem_cons_of_mem _ hz))
    · rw [if_neg hf]
      exact ih _ hacc (fun z hz => hq z (List.mem_cons_of_mem _ hz))

/-- The outer loop of the recommendation collector preserves the per-example
property. -/
theorem collectFailures_good (P : String → FailEx → Prop) :
    ∀ (results : List AuditRes) (acc : List (String × Nat × List FailEx)),
      (∀ e ∈ acc, ∀ ex ∈ e.2.2, P e.1 ex) →
      (∀ r ∈ results, ∀ q ∈ r.criteria_results, q.2.status = "Fail" →
        P q.1 ⟨r.issue_key, q.2.reason⟩) →
      ∀ e ∈ collectFailures results acc, ∀ ex ∈ e.2.2, P e.1 ex := by
  intro results
  induction results with
  | nil => intro acc hacc _; exact hacc
  | cons r rs ih =>
    intro acc hacc hr
    unfold collectFailures
    exact ih _
      (collectFromCriteria_good P r.issue_key r.criteria_results acc hacc
        (fun q hq hf => hr r (List.mem_cons_self _ _) q hq hf))
      (fun z hz => hr z (List.mem_cons_of_mem _ hz))

/-- Claim C9, counterexample. Declaration order puts status_hygiene (position 5)
before weekly_updates (position 7) in the core-check dictionary, but with one
subject failing only weekly_updates followed by one failing only status_hygiene
the two recommendations tie at one failure each and come out in first-encounter
order — weekly_updates first — not in criterion declaration order. -/
theorem c9_counterexample :
    ((core_checks cfg0).map Prod.fst).indexOf "status_hygiene" <
      ((core_checks cfg0).map Prod.fst).indexOf "weekly_updates" ∧
    (AuditReportBuilder.generate_recommendations cfg0 [weeklyFailRes, hygieneFailRes]).map
        (fun rec => rec.criterion) = ["weekly_updates", "status_hygiene"] ∧
    (AuditReportBuilder.generate_recommendations cfg0 [weeklyFailRes, hygieneFailRes]).map
        (fun rec => rec.failed_count) = [1, 1] ∧
    (["weekly_updates", "status_hygiene"] : List String) ≠
      ["status_hygiene", "weekly_updates"] := by
  refine ⟨by decide, rfl, rfl, by decide⟩

/-- Claim C9, amended: the recommendation list is sorted by descending failure
count; among entries with equal counts the first-encounter order over the audit
results is preserved (Python sorted is stable over the insertion-ordered
failure dictionary), which is declaration order only within a single subject;
each recommendation carries at most 3 examples; and every example carries the
issue key and original reason text of an actual Fail result in the input. -/
theorem c9_recommendation_order (cfg : Config) (results : List AuditRes) :
    List.Pairwise (fun a b => b.failed_count ≤ a.failed_count)
      (AuditReportBuilder.generate_recommendations cfg results) ∧
    (∀ rec ∈ AuditReportBuilder.generate_recommendations cfg results,
      rec.examples.length ≤ 3) ∧
    (∀ n : Nat,
      (sortFailuresDesc (collectFailures results []) []).filter (fun e => e.2.1 == n) =
        (collectFailures results []).filter (fun e => e.2.1 == n)) ∧
    (∀ rec ∈ AuditReportBuilder.generate_recommendations cfg results,
      ∀ ex ∈ rec.examples, ∃ r ∈ results, ex.issue_key = r.issue_key ∧
        ∃ q ∈ r.criteria_results, q.1 = rec.criterion ∧ q.2.status = "Fail" ∧
          ex.reason = q.2.reason) := by
  refine ⟨?_, ?_, ?_, ?_⟩
  · have hs := sortFailuresDesc_sorted (collectFailures results []) [] List.Pairwise.nil
    unfold AuditReportBuilder.generate_recommendations
    rw [List.pairwise_map]
    exact hs.imp (fun h => h)
  · intro rec hrec
    rcases List.mem_map.mp hrec with ⟨e, _, rfl⟩
    simp only [List.length_take]
    exact Nat.min_le_left 3 e.2.2.length
  · intro n
    have := sortFailuresDesc_filter n (collectFailures results []) [] List.Pairwise.nil
    simpa using this
  · intro rec hrec ex hex
    rcases List.mem_map.mp hrec with ⟨e, he, rfl⟩
    have hmem : e ∈ collectFailures results [] := by
      rcases mem_sortFailuresDesc he with h2 | h2
      · exact h2
      · cases h2
    have hgood := collectFailures_good
      (fun c exx => ∃ r ∈ results, exx.issue_key = r.issue_key ∧
        ∃ q ∈ r.criteria_results, q.1 = c ∧ q.2.status = "Fail" ∧
          exx.reason = q.2.reason)
      results [] (by intro z hz; cases hz)
      (fun r hr q hq hf => ⟨r, hr, rfl, q, hq, rfl, hf, rfl⟩)
      e hmem
    have hex2 : ex ∈ e.2.2 := List.take_subset 3 e.2.2 hex
    exact hgood ex hex2

/-- Claim C9, witness: the amended theorem applied to the concrete two-subject
tie, discharging the membership hypotheses at the first recommendation. -/
theorem c9_witness :
    (⟨"weekly_updates", 1, "MEDIUM", [⟨"T-1", "No updates on Wed/Fri"⟩]⟩ :
        Recommendation).examples.length ≤ 3 ∧
    (∃ r ∈ [weeklyFailRes, hygieneFailRes],
      (⟨"T-1", "No updates on Wed/Fri"⟩ : FailEx).issue_key = r.issue_key ∧
      ∃ q ∈ r.criteria_results, q.1 = "weekly_updates" ∧ q.2.status = "Fail" ∧
        (⟨"T-1", "No updates on Wed/Fri"⟩ : FailEx).reason = q.2.reason) :=
  ⟨(c9_recommendation_order cfg0 [weeklyFailRes, hygieneFailRes]).2.1
      ⟨"weekly_updates", 1, "MEDIUM", [⟨"T-1", "No updates on Wed/Fri"⟩]⟩ (by decide),
   (c9_recommendation_order cfg0 [weeklyFailRes, hygieneFailRes]).2.2.2
      ⟨"weekly_updates", 1, "MEDIUM", [⟨"T-1", "No updates on Wed/Fri"⟩]⟩ (by decide)
      ⟨"T-1", "No updates on Wed/Fri"⟩ (by decide)⟩
